import Mathlib

/-!
# vkconfig: the Configuration / Layer data model and the trees built from it

A shallow embedding of `src/vkconfig/configuration.{h,cpp}` and
`src/vkconfig/layer.h`, and theorems about collapse, validity, duplication,
lookup and insertion; then `Layer::CopyLayer` of `src/vkconfig_core/layer.h`,
the saved tree state and `CreateGUI` of `src/vkconfig/settings_tree.cpp`, and
the JSON traversal of `src/vkconfig/dlgvulkaninfo.cpp`.

Conventions of the embedding:
* `QString` is `String`, `QStringList` is `List String`, `QByteArray` is a list
  of characters, `std::vector<T>` is `List T`;
* a nullable pointer result (`Layer*`) is an `Option`; a pointer or reference to
  an entry of a vector is the position of that entry;
* a member function that may write to its receiver takes the receiver and
  returns its new value (together with the result, when there is one);
* `std::size_t` and the loop counter `int new_rank` are natural numbers: the
  counter is incremented once per kept entry, so it stays below `2^31` for
  every vector of fewer than `2^31` entries;
* a tree widget item is its text, its expanded flag and its children; a method
  that fills an item passed by pointer returns the item after the call;
* code that can stop the program (a null dereference, a failed `assert`)
  returns an `Except` value.
-/

namespace VkConfig

/-! ## Data model -/

/-- Modelled from the spec: `layer_type.h` is not among the sources. `LayerType`
is a plain C++ enumeration there; it is kept as the integer value of the
enumerator. No operation of `Configuration` inspects it. -/
abbrev LayerType := Nat

/-- Modelled from the spec: the typed value of a Layer Setting (`layer_setting.h`
is not among the sources). Spec section 3: one of boolean, integer,
integer-range, enumerated choice, bit-flags, string, string-list, filesystem
path. -/
inductive SettingValue where
  | boolean (b : Bool)
  | integer (i : Int)
  | integerRange (lo hi : Int)
  | enumerated (choice : String)
  | bitFlags (flags : List String)
  | string (s : String)
  | stringList (items : List String)
  | filesystemPath (path : String)
  deriving DecidableEq

/-- Modelled from the spec: a Layer Setting (`layer_setting.h` is not among the
sources). Spec section 3: a key, a typed value and display metadata. No
operation of `Configuration` inspects a setting; settings are only copied. -/
structure LayerSetting where
  key : String
  label : String
  description : String
  value : SettingValue
  deriving DecidableEq

/-- The enumeration `LayerState` of `layer.h`. -/
inductive LayerState where
  | LAYER_STATE_APPLICATION_CONTROLLED
  | LAYER_STATE_OVERRIDDEN
  | LAYER_STATE_EXCLUDED
  deriving DecidableEq

open LayerState

/-- The data members of `class Layer` (`src/vkconfig/layer.h`), in declaration
order. -/
structure Layer where
  type : LayerType
  _file_format_version : String
  _name : String
  _type : String
  _library_path : String
  _api_version : String
  _implementation_version : String
  _description : String
  _layer_path : String
  settings : List LayerSetting
  state : LayerState
  _rank : Nat
  deriving DecidableEq

/-- The enumeration `ValidationPreset` of `configuration.h`
(`VALIDATION_PRESET_USER_DEFINED` is another name of `VALIDATION_PRESET_NONE`). -/
inductive ValidationPreset where
  | VALIDATION_PRESET_NONE
  | VALIDATION_PRESET_STANDARD
  | VALIDATION_PRESET_GPU_ASSISTED
  | VALIDATION_PRESET_SHADER_PRINTF
  | VALIDATION_PRESET_REDUCED_OVERHEAD
  | VALIDATION_PRESET_BEST_PRACTICES
  | VALIDATION_PRESET_SYNCHRONIZATION
  deriving DecidableEq

/-- Bytes of a `QByteArray`. -/
abbrev QByteArray := List Char

/-- The data members of `class Configuration` (`configuration.h`), in
declaration order. -/
structure Configuration where
  _name : String
  _file : String
  _description : String
  _setting_tree_state : QByteArray
  _preset : ValidationPreset
  _overridden_layers : List Layer
  _excluded_layers : List String
  deriving DecidableEq

/-! ## Operations of `Configuration` -/

/-- The constructor `Configuration::Configuration()`: `_preset` is initialised
to `VALIDATION_PRESET_NONE`, every other member is default-constructed (empty
strings, empty byte array, empty vector, empty string list). -/
def Configuration.construct : Configuration where
  _name := ""
  _file := ""
  _description := ""
  _setting_tree_state := []
  _preset := ValidationPreset.VALIDATION_PRESET_NONE
  _overridden_layers := []
  _excluded_layers := []

/-- The method `Configuration::DuplicateConfiguration`: a new `Configuration` is
constructed and six members are assigned from the receiver, in the order of the
source. Returns the receiver after the call and the duplicate. -/
def Configuration.DuplicateConfiguration (self : Configuration) :
    Configuration × Configuration :=
  let duplicate := Configuration.construct
  let duplicate := { duplicate with _name := self._name }
  let duplicate := { duplicate with _file := self._file }
  let duplicate := { duplicate with _description := self._description }
  let duplicate := { duplicate with _excluded_layers := self._excluded_layers }
  let duplicate := { duplicate with _preset := self._preset }
  let duplicate := { duplicate with _overridden_layers := self._overridden_layers }
  (self, duplicate)

/-- The `for` loop of `Configuration::CollapseConfiguration`, over the entries
not yet visited. The state carried through the loop is `new_rank`,
`_excluded_layers` and `collapsed_layers`. The write
`_overridden_layers[i]._rank = new_rank++` is seen through the copy pushed right
after it; the vector written to is replaced once the loop is over. -/
def CollapseConfiguration.loop :
    List Layer → Nat → List String → List Layer → List String × List Layer
  | [], _, excluded, collapsed => (excluded, collapsed)
  | layer :: rest, new_rank, excluded, collapsed =>
    match layer.state with
    | LAYER_STATE_EXCLUDED =>
      CollapseConfiguration.loop rest new_rank (excluded ++ [layer._name]) collapsed
    | LAYER_STATE_OVERRIDDEN =>
      CollapseConfiguration.loop rest (new_rank + 1) excluded
        (collapsed ++ [{ layer with _rank := new_rank }])
    | LAYER_STATE_APPLICATION_CONTROLLED =>
      CollapseConfiguration.loop rest new_rank excluded collapsed

/-- The method `Configuration::CollapseConfiguration`: `_excluded_layers` is
cleared, the loop runs with `new_rank = 0` and an empty `collapsed_layers`, and
`_overridden_layers` is replaced by `collapsed_layers`. -/
def Configuration.CollapseConfiguration (self : Configuration) : Configuration :=
  let result := CollapseConfiguration.loop self._overridden_layers 0 [] []
  { self with _excluded_layers := result.1, _overridden_layers := result.2 }

/-- First loop of `Configuration::IsValid`: `true` when the loop over
`_overridden_layers` runs to its end, `false` when it returns early because
`FindLayer` gives `nullptr` for the name of an entry. -/
def IsValid.overriddenResolve (FindLayer : String → Option Layer) : List Layer → Bool
  | [] => true
  | layer :: rest =>
    if (FindLayer layer._name).isNone then false
    else IsValid.overriddenResolve FindLayer rest

/-- Second loop of `Configuration::IsValid`: the same over the names in
`_excluded_layers`. -/
def IsValid.excludedResolve (FindLayer : String → Option Layer) : List String → Bool
  | [] => true
  | name :: rest =>
    if (FindLayer name).isNone then false
    else IsValid.excludedResolve FindLayer rest

/-- The method `Configuration::IsValid`. The registry lookup
`Configurator::Get().FindLayer` (`configurator.h` is not among the sources) is
the parameter `FindLayer`. -/
def Configuration.IsValid (FindLayer : String → Option Layer) (self : Configuration) :
    Bool :=
  if self._excluded_layers.isEmpty && self._overridden_layers.isEmpty then false
  else if !IsValid.overriddenResolve FindLayer self._overridden_layers then false
  else if !IsValid.excludedResolve FindLayer self._excluded_layers then false
  else true

/-- The method `Configuration::CreateOverriddenLayer`: a copy of `source_layer`
is emplaced at the end of `_overridden_layers`. The reference returned,
`*new_layer`, is given as the position of the new entry in the vector. Returns
the receiver after the call and that position. -/
def Configuration.CreateOverriddenLayer (self : Configuration) (source_layer : Layer) :
    Configuration × Nat :=
  let new_layer := self._overridden_layers.length
  ({ self with _overridden_layers := self._overridden_layers ++ [source_layer] }, new_layer)

/-- The `for` loop of `Configuration::IsOverriddenLayerAvailable`, over the
entries not yet visited: `true` at the first entry whose `_name` and
`_layer_path` both match, `false` when the loop runs to its end. -/
def IsOverriddenLayerAvailable.loop (layer_name full_path : String) : List Layer → Bool
  | [] => false
  | layer :: rest =>
    if layer._name = layer_name ∧ layer._layer_path = full_path then true
    else IsOverriddenLayerAvailable.loop layer_name full_path rest

/-- The method `Configuration::IsOverriddenLayerAvailable`. -/
def Configuration.IsOverriddenLayerAvailable (self : Configuration)
    (layer_name full_path : String) : Bool :=
  IsOverriddenLayerAvailable.loop layer_name full_path self._overridden_layers

/-- The `for` loop of `Configuration::FindOverriddenLayer`, over the entries not
yet visited, `i` being the index of the first of them: the pointer
`&_overridden_layers[i]` of the first entry whose `_name` matches, given as the
position `i`, or `nullptr` (`none`) when the loop runs to its end. -/
def FindOverriddenLayer.loop (layer_name : String) : List Layer → Nat → Option Nat
  | [], _ => none
  | layer :: rest, i =>
    if layer._name = layer_name then some i
    else FindOverriddenLayer.loop layer_name rest (i + 1)

/-- The method `Configuration::FindOverriddenLayer`. -/
def Configuration.FindOverriddenLayer (self : Configuration) (layer_name : String) :
    Option Nat :=
  FindOverriddenLayer.loop layer_name self._overridden_layers 0

/-! ## Notions used to state the properties -/

/-- The entries of `layers` with their ranks replaced by `start`, `start + 1`,
... in sequence order; every other field is kept. -/
def rerankFrom (start : Nat) : List Layer → List Layer
  | [] => []
  | layer :: rest => { layer with _rank := start } :: rerankFrom (start + 1) rest

/-- A layer with its rank forgotten (set to 0): two layers agree on every field
other than `_rank` exactly when their images agree. -/
def Layer.withoutRank (layer : Layer) : Layer := { layer with _rank := 0 }

/-- Test `state == LAYER_STATE_OVERRIDDEN`. -/
def Layer.isOverridden (layer : Layer) : Bool :=
  decide (layer.state = LAYER_STATE_OVERRIDDEN)

/-- Test `state == LAYER_STATE_EXCLUDED`. -/
def Layer.isExcluded (layer : Layer) : Bool :=
  decide (layer.state = LAYER_STATE_EXCLUDED)

/-- Invariant I1 of the spec: no entry of `_overridden_layers` has a name that
is an element of `_excluded_layers`. -/
abbrev Configuration.I1 (self : Configuration) : Prop :=
  ∀ layer ∈ self._overridden_layers, layer._name ∉ self._excluded_layers

/-! ## Concrete layers and configurations used as examples -/

/-- A layer with the given name, folder and state; rank 7 so that a re-ranking
is visible. -/
def sampleLayer (name path : String) (state : LayerState) : Layer where
  type := 0
  _file_format_version := "1.0.0"
  _name := name
  _type := "GLOBAL"
  _library_path := "./lib.so"
  _api_version := "1.2.0"
  _implementation_version := "1"
  _description := ""
  _layer_path := path
  settings := []
  state := state
  _rank := 7

/-- A configuration with the given entries and exclusion list. -/
def sampleConfiguration (layers : List Layer) (excluded : List String) : Configuration where
  _name := "Sample"
  _file := "Sample.json"
  _description := "sample"
  _setting_tree_state := ['1', '0']
  _preset := ValidationPreset.VALIDATION_PRESET_STANDARD
  _overridden_layers := layers
  _excluded_layers := excluded

/-- The configuration of the collapse scenario of the spec: A is overridden, B
is excluded, C is left to the application. -/
def scenarioABC : Configuration :=
  sampleConfiguration
    [sampleLayer "A" "/layers" LAYER_STATE_OVERRIDDEN,
     sampleLayer "B" "/layers" LAYER_STATE_EXCLUDED,
     sampleLayer "C" "/layers" LAYER_STATE_APPLICATION_CONTROLLED] ["Z"]

/-- A configuration with a single entry, B, in state EXCLUDED. -/
def onlyExcludedB : Configuration :=
  sampleConfiguration [sampleLayer "B" "/layers" LAYER_STATE_EXCLUDED] []

/-- Two installations of a layer named A, from two folders: the first is
overridden, the second excluded. -/
def sameNameTwice : Configuration :=
  sampleConfiguration
    [sampleLayer "A" "/usr/layers" LAYER_STATE_OVERRIDDEN,
     sampleLayer "A" "/opt/layers" LAYER_STATE_EXCLUDED] []

/-- A registry that knows the layers A and B only. -/
def registryAB (name : String) : Option Layer :=
  if name = "A" then some (sampleLayer "A" "/layers" LAYER_STATE_APPLICATION_CONTROLLED)
  else if name = "B" then some (sampleLayer "B" "/layers" LAYER_STATE_APPLICATION_CONTROLLED)
  else none

/-- Two installations of a layer named B, from two folders, both excluded. -/
def excludedTwice : Configuration :=
  sampleConfiguration
    [sampleLayer "B" "/usr/layers" LAYER_STATE_EXCLUDED,
     sampleLayer "B" "/opt/layers" LAYER_STATE_EXCLUDED] []

/-- A configuration that excludes B and overrides nothing. -/
def excludesB : Configuration :=
  sampleConfiguration [] ["B"]

/-- A setting `log_filename` with a string value. -/
def sampleSetting (value : String) : LayerSetting where
  key := "log_filename"
  label := "Log file"
  description := ""
  value := SettingValue.string value

/-- The scenario of the spec with other ranks: entry A has rank 3 instead of 7. -/
def scenarioABCOtherRanks : Configuration :=
  sampleConfiguration
    [{ sampleLayer "A" "/layers" LAYER_STATE_OVERRIDDEN with _rank := 3 },
     { sampleLayer "B" "/layers" LAYER_STATE_EXCLUDED with _rank := 0 },
     sampleLayer "C" "/layers" LAYER_STATE_APPLICATION_CONTROLLED] ["Z"]

/-! ## `Layer` of `vkconfig_core` -/

namespace Core

/-- The data members of `class Layer` of `src/vkconfig_core/layer.h`, in
declaration order (`LayerState`, `LayerType` and `LayerSetting` are the types of
the same names used above; `_rank` is an `int` here). -/
structure Layer where
  _file_format_version : String
  _name : String
  _type : String
  _library_path : String
  _api_version : String
  _implementation_version : String
  _description : String
  _layer_path : String
  _layer_type : LayerType
  _layer_settings : List LayerSetting
  _state : LayerState
  _rank : Int
  deriving DecidableEq

/-- The method `Layer::CopyLayer` of `src/vkconfig_core/layer.h`: twelve
assignments to members of `*destination_layer`, in the order of the source.
Returns the receiver (the method is `const`) and the destination after the
call. -/
def Layer.CopyLayer (self : Layer) (destination_layer : Layer) : Layer × Layer :=
  let destination_layer := { destination_layer with
    _file_format_version := self._file_format_version }
  let destination_layer := { destination_layer with _name := self._name }
  let destination_layer := { destination_layer with _type := self._type }
  let destination_layer := { destination_layer with _library_path := self._library_path }
  let destination_layer := { destination_layer with _api_version := self._api_version }
  let destination_layer := { destination_layer with
    _implementation_version := self._implementation_version }
  let destination_layer := { destination_layer with _description := self._description }
  let destination_layer := { destination_layer with _layer_type := self._layer_type }
  let destination_layer := { destination_layer with _state := self._state }
  let destination_layer := { destination_layer with _rank := self._rank }
  let destination_layer := { destination_layer with _layer_path := self._layer_path }
  let destination_layer := { destination_layer with _layer_settings := self._layer_settings }
  (self, destination_layer)

/-- A layer of `vkconfig_core` with the given name, every other member set to a
fixed sample value. -/
def sampleCoreLayer (name : String) : Layer where
  _file_format_version := "1.1.2"
  _name := name
  _type := "GLOBAL"
  _library_path := "./libVkLayer.so"
  _api_version := "1.2.148"
  _implementation_version := "2"
  _description := "sample"
  _layer_path := "/usr/share/vulkan/explicit_layer.d"
  _layer_type := 1
  _layer_settings := [sampleSetting "stdout"]
  _state := LAYER_STATE_OVERRIDDEN
  _rank := 4

/-- A default-looking destination layer: empty strings, no settings, rank 0. -/
def blankLayer : Layer where
  _file_format_version := ""
  _name := ""
  _type := ""
  _library_path := ""
  _api_version := ""
  _implementation_version := ""
  _description := ""
  _layer_path := ""
  _layer_type := 0
  _layer_settings := []
  _state := LAYER_STATE_APPLICATION_CONTROLLED
  _rank := 0

end Core

/-! ## Tree items and the saved tree state (`settings_tree.cpp`) -/

/-- A `QTreeWidgetItem`, as far as the code below uses one: the text of column
0, the expanded flag and the child items in order. Font, alignment, tool tip,
disabled flag, size hint and attached widgets are not kept. -/
structure QTreeWidgetItem where
  text : String
  expanded : Bool
  children : List QTreeWidgetItem

/-- The item made by `new QTreeWidgetItem()`: no text, not expanded, no child. -/
def QTreeWidgetItem.create : QTreeWidgetItem := ⟨"", false, []⟩

/-- The call `item->setText(0, text)`. -/
def QTreeWidgetItem.setText (item : QTreeWidgetItem) (text : String) : QTreeWidgetItem :=
  { item with text := text }

/-- The call `item->setExpanded(expand)`. -/
def QTreeWidgetItem.setExpanded (item : QTreeWidgetItem) (expand : Bool) : QTreeWidgetItem :=
  { item with expanded := expand }

/-- The call `item->addChild(child)`: `child` becomes the last child. -/
def QTreeWidgetItem.addChild (item child : QTreeWidgetItem) : QTreeWidgetItem :=
  { item with children := item.children ++ [child] }

/-- The read `byte_array[i]` of a `QByteArray` used as a value: the byte at `i`,
and the null character beyond the last byte (at position `length` this is the
terminating null byte that follows the bytes of a `QByteArray`). -/
def QByteArray.read (byte_array : QByteArray) (i : Nat) : Char :=
  byte_array.getD i (Char.ofNat 0)

namespace SettingsTreeManager

mutual
/-- The method `SettingsTreeManager::GetTreeState`: one byte is pushed for
`top_item`, `'1'` when it is expanded and `'0'` otherwise, then the method is
called on every child in order. Returns `byte_array` after the call. -/
def GetTreeState (byte_array : QByteArray) : QTreeWidgetItem → QByteArray
  | ⟨_, expanded, children⟩ =>
    GetTreeState.children (byte_array ++ [if expanded then '1' else '0']) children
/-- The `for` loop of `GetTreeState` over the children not yet visited. -/
def GetTreeState.children (byte_array : QByteArray) : List QTreeWidgetItem → QByteArray
  | [] => byte_array
  | child :: rest => GetTreeState.children (GetTreeState byte_array child) rest
end

/-- What a call of `SetTreeState` leaves: the index returned, the item with its
expanded flags set, and the positions of `byte_array` read so far, in order. -/
structure SetTreeStateResult where
  index : Nat
  top_item : QTreeWidgetItem
  reads : List Nat

/-- What the loop of `SetTreeState` over the children leaves. -/
structure SetTreeStateChildren where
  index : Nat
  children : List QTreeWidgetItem
  reads : List Nat

mutual
/-- The method `SettingsTreeManager::SetTreeState`. When
`index > byte_array.length()` the item is expanded; otherwise
`byte_array[index++]` is read and the item is expanded when the byte is `'1'`.
Then the children are walked, each call starting at the index the previous one
returned. `reads` is the log of the positions of `byte_array` read before the
call; the result carries the log extended by this call. -/
def SetTreeState (byte_array : QByteArray) (index : Nat) (reads : List Nat) :
    QTreeWidgetItem → SetTreeStateResult
  | ⟨text, _, children⟩ =>
    if index > byte_array.length then
      let walked := SetTreeState.children byte_array index reads children
      ⟨walked.index, ⟨text, true, walked.children⟩, walked.reads⟩
    else
      let walked := SetTreeState.children byte_array (index + 1) (reads ++ [index]) children
      ⟨walked.index, ⟨text, byte_array.read index == '1', walked.children⟩, walked.reads⟩
/-- The `for` loop of `SetTreeState` over the children not yet visited. -/
def SetTreeState.children (byte_array : QByteArray) (index : Nat) (reads : List Nat) :
    List QTreeWidgetItem → SetTreeStateChildren
  | [] => ⟨index, [], reads⟩
  | child :: rest =>
    let first := SetTreeState byte_array index reads child
    let others := SetTreeState.children byte_array first.index first.reads rest
    ⟨others.index, first.top_item :: others.children, others.reads⟩
end

end SettingsTreeManager

mutual
/-- The items of a tree in pre-order (an item, then the items of its children
in order), each as its text and expanded flag. -/
def QTreeWidgetItem.preorder : QTreeWidgetItem → List (String × Bool)
  | ⟨text, expanded, children⟩ => (text, expanded) :: QTreeWidgetItem.preorderAll children
/-- The items of a list of trees in pre-order. -/
def QTreeWidgetItem.preorderAll : List QTreeWidgetItem → List (String × Bool)
  | [] => []
  | item :: rest => item.preorder ++ QTreeWidgetItem.preorderAll rest
end

mutual
/-- The tree with the text and flag of every item replaced by their image under
`label`; the shape of the tree is kept. -/
def QTreeWidgetItem.relabel (label : String → Bool → String × Bool) :
    QTreeWidgetItem → QTreeWidgetItem
  | ⟨text, expanded, children⟩ =>
    ⟨(label text expanded).1, (label text expanded).2,
      QTreeWidgetItem.relabelAll label children⟩
/-- The trees of a list relabelled. -/
def QTreeWidgetItem.relabelAll (label : String → Bool → String × Bool) :
    List QTreeWidgetItem → List QTreeWidgetItem
  | [] => []
  | item :: rest => item.relabel label :: QTreeWidgetItem.relabelAll label rest
end

/-- The shape of a tree: every text and flag forgotten. -/
def QTreeWidgetItem.shape (item : QTreeWidgetItem) : QTreeWidgetItem :=
  item.relabel (fun _ _ => ("", false))

/-- The tree with its texts forgotten: shape and expanded flags. -/
def QTreeWidgetItem.flagsOnly (item : QTreeWidgetItem) : QTreeWidgetItem :=
  item.relabel (fun _ expanded => ("", expanded))

/-- The tree with its expanded flags forgotten: shape and texts. -/
def QTreeWidgetItem.textsOnly (item : QTreeWidgetItem) : QTreeWidgetItem :=
  item.relabel (fun text _ => (text, false))

/-- The byte that stands for an expanded flag in a saved tree state. -/
def treeStateByte (expanded : Bool) : Char :=
  if expanded then '1' else '0'

/-- A tree of three items: a root with two leaves, none expanded. -/
def threeItems : QTreeWidgetItem :=
  ⟨"root", false, [⟨"first", false, []⟩, ⟨"second", false, []⟩]⟩

/-- A tree of the shape of `threeItems` with other texts: the root and its
second child are expanded. -/
def threeItemsSaved : QTreeWidgetItem :=
  ⟨"", true, [⟨"a", false, []⟩, ⟨"b", true, []⟩]⟩

/-! ## JSON values and the Vulkan info tree (`dlgvulkaninfo.cpp`) -/

/-- A `QJsonValue`. An object holds its members in the order `keys()` lists
them; the payload of a number is not inspected by the code below, which only
turns values into text. -/
inductive QJsonValue where
  | null
  | bool (value : Bool)
  | double (value : Int)
  | string (value : String)
  | array (items : List QJsonValue)
  | object (members : List (String × QJsonValue))
  | undefined

/-- A `QJsonObject`: the members of an object, in key order. -/
abbrev QJsonObject := List (String × QJsonValue)

/-- The call `value.toObject()`: the members of an object, and the empty object
for every other value. -/
def QJsonValue.toObject : QJsonValue → QJsonObject
  | QJsonValue.object members => members
  | _ => []

/-- The call `value.isArray()`. -/
def QJsonValue.isArray : QJsonValue → Bool
  | QJsonValue.array _ => true
  | _ => false

/-- The call `value.toArray()`: the elements of an array, and the empty array
for every other value. -/
def QJsonValue.toArray : QJsonValue → List QJsonValue
  | QJsonValue.array items => items
  | _ => []

/-- The call `object.keys()`. -/
def QJsonObject.keys (object : QJsonObject) : List String :=
  object.map (fun member => member.1)

/-- The call `object.value(key)`: the value of the member with that key, and
`Undefined` when there is none. -/
def QJsonObject.value : QJsonObject → String → QJsonValue
  | [], _ => QJsonValue.undefined
  | member :: rest, key =>
    if member.1 = key then member.2 else QJsonObject.value rest key

namespace dlgVulkanInfo

/-- The `for` loop of `dlgVulkanInfo::TraverseGenericProperties` over the fields
not yet visited. `recurse field h pNewChild` stands for the recursive call
`TraverseGenericProperties(fieldValue, pNewChild)`, made only for a field whose
value is a non-empty object (`h`). The text of a value,
`toVariant().toString()`, is the parameter `variantText`; keys and texts hold
no null character, so that `sprintf` with `%s` copies them whole. -/
def TraverseGenericProperties.fields (variantText : QJsonValue → String)
    (parentObject : QJsonObject)
    (recurse : (field : String) → 0 < (parentObject.value field).toObject.length →
      QTreeWidgetItem → QTreeWidgetItem) :
    List String → QTreeWidgetItem → QTreeWidgetItem
  | [], pParentTreeItem => pParentTreeItem
  | field :: rest, pParentTreeItem =>
    let fieldValue := parentObject.value field
    if !fieldValue.isArray then
      if h : 0 < fieldValue.toObject.length then
        let pNewChild := QTreeWidgetItem.create.setText field
        TraverseGenericProperties.fields variantText parentObject recurse rest
          (pParentTreeItem.addChild (recurse field h pNewChild))
      else
        let pItem := QTreeWidgetItem.create.setText (field ++ " = " ++ variantText fieldValue)
        TraverseGenericProperties.fields variantText parentObject recurse rest
          (pParentTreeItem.addChild pItem)
    else
      let jsonArray := fieldValue.toArray
      let pArrayParent := QTreeWidgetItem.create.setText
        (field ++ ": count = " ++ toString jsonArray.length)
      let pArrayParent := jsonArray.foldl
        (fun parent element =>
          parent.addChild (QTreeWidgetItem.create.setText (variantText element)))
        pArrayParent
      TraverseGenericProperties.fields variantText parentObject recurse rest
        (pParentTreeItem.addChild pArrayParent)

/-- The method `dlgVulkanInfo::TraverseGenericProperties`: the loop runs over
`parentObject.keys()` of `parentObject = parentJson.toObject()`. Returns the
parent item after the call. -/
def TraverseGenericProperties (variantText : QJsonValue → String) (parentJson : QJsonValue)
    (pParentTreeItem : QTreeWidgetItem) : QTreeWidgetItem :=
  TraverseGenericProperties.fields variantText parentJson.toObject
    (fun field _ pNewChild =>
      TraverseGenericProperties variantText (parentJson.toObject.value field) pNewChild)
    parentJson.toObject.keys pParentTreeItem
termination_by sizeOf parentJson
decreasing_by
  rename_i h
  have h0 : 0 < (QJsonObject.value parentJson.toObject field).toObject.length := h
  have hvalue : ∀ object : QJsonObject,
      0 < (QJsonObject.value object field).toObject.length →
        sizeOf (QJsonObject.value object field) < sizeOf object := by
    intro object
    induction object with
    | nil => simp [QJsonObject.value, QJsonValue.toObject]
    | cons member rest ih =>
      intro hpos
      unfold QJsonObject.value at hpos ⊢
      split
      · obtain ⟨k, v⟩ := member
        simp
        omega
      · rename_i hne
        simp only [hne, if_false] at hpos
        have := ih hpos
        simp
        omega
  have h1 := hvalue parentJson.toObject h0
  have h3 : sizeOf parentJson.toObject < sizeOf parentJson := by
    cases parentJson with
    | object members => simp [QJsonValue.toObject]
    | _ => simp [QJsonValue.toObject, QJsonObject.value] at h0
  omega

/-- The `for` loop of `dlgVulkanInfo::BuildSurfaces`: `count` more iterations,
each one the call `TraverseGenericProperties(jsonValue, pRoot)`. -/
def BuildSurfaces.loop (variantText : QJsonValue → String) (jsonValue : QJsonValue) :
    Nat → QTreeWidgetItem → QTreeWidgetItem
  | 0, pRoot => pRoot
  | count + 1, pRoot =>
    BuildSurfaces.loop variantText jsonValue count
      (TraverseGenericProperties variantText jsonValue pRoot)

/-- The method `dlgVulkanInfo::BuildSurfaces`: the root gets its text and the
loop runs `surfaces.size()` times. Returns the root item, which is the item
added to the tree widget. -/
def BuildSurfaces (variantText : QJsonValue → String) (jsonValue : QJsonValue)
    (pRoot : QTreeWidgetItem) : QTreeWidgetItem :=
  let surfaces := jsonValue.toObject
  let surfaceCount := surfaces.length
  let pRoot := pRoot.setText "Presentable Surfaces"
  BuildSurfaces.loop variantText jsonValue surfaceCount pRoot

/-- The method `dlgVulkanInfo::BuildGroups`: the root gets its text and
`TraverseGenericProperties` is called once. Returns the root item. -/
def BuildGroups (variantText : QJsonValue → String) (jsonValue : QJsonValue)
    (pRoot : QTreeWidgetItem) : QTreeWidgetItem :=
  let pRoot := pRoot.setText "Device Groups"
  TraverseGenericProperties variantText jsonValue pRoot

end dlgVulkanInfo

/-- A text for a JSON value: a string is itself, a number is written in decimal,
a boolean is `true` or `false`, every other value has no text. -/
def sampleVariantText : QJsonValue → String
  | QJsonValue.string value => value
  | QJsonValue.double value => toString value
  | QJsonValue.bool value => toString value
  | _ => ""

/-- A "Presentable Surfaces" value with two GPUs, each with one surface
property. -/
def twoSurfaces : QJsonValue :=
  QJsonValue.object
    [("GPU0", QJsonValue.object [("Surface type", QJsonValue.string "VK_KHR_xcb_surface")]),
     ("GPU1", QJsonValue.object [("Surface type", QJsonValue.string "VK_KHR_xlib_surface")])]

/-- An object with a number, an array, a nested object and an empty object. -/
def mixedObject : QJsonValue :=
  QJsonValue.object
    [("apiVersion", QJsonValue.double 4202627),
     ("formats", QJsonValue.array [QJsonValue.string "R8", QJsonValue.string "R16"]),
     ("limits", QJsonValue.object [("maxImageDimension1D", QJsonValue.double 16384)]),
     ("none", QJsonValue.object [])]

/-! ## The settings tree (`SettingsTreeManager::CreateGUI`) -/

namespace SettingsTreeManager

/-- Modelled from the spec: `parameter.h` is not among the sources. A `Parameter`
is the entry of a Configuration for one layer; the members are those
`settings_tree.cpp` reads: the layer key, the state, the platform flags and the
setting data (of which `CreateGUI` only asks whether it is empty). -/
structure Parameter where
  key : String
  state : LayerState
  platform_flags : Int
  settings : List LayerSetting
  deriving DecidableEq

/-- Modelled from the spec: the `Layer` class `settings_tree.cpp` is written
against is not among the sources (it differs from both `layer.h` files). The
members are those `CreateGUI` reads of an installed layer: key, status,
description, presets and setting descriptions. -/
structure Layer where
  key : String
  status : Nat
  description : String
  presets : List String
  settings : List LayerSetting
  deriving DecidableEq

/-- Modelled from the spec: the `Configuration` class `settings_tree.cpp` is
written against is not among the sources. The members are those `CreateGUI`
reads: the parameters and the saved tree state. -/
structure Configuration where
  parameters : List Parameter
  setting_tree_state : QByteArray
  deriving DecidableEq

/-- Modelled from the spec: the functions and constants used by `CreateGUI`,
`BuildValidationTree` and `BuildGenericTree` whose definitions are not among
the sources (`platform.h`, `util.h`, `configuration.h` of that version, the
widget classes). `validationTree` and `genericTree` stand for what the two
tree builders add to the layer item once they hold the layer they looked up:
setting widgets, which are outside this model. -/
structure Collaborators where
  IsPlatformSupported : Int → Bool
  FindByKey : List Layer → String → Option Layer
  STATUS_STABLE : Nat
  GetToken : Nat → String
  HasOverride : Configuration → Bool
  CountOverriddenLayers : List Parameter → Nat
  CountExcludedLayers : List Parameter → List Layer → Nat
  validationTree : Layer → Parameter → QTreeWidgetItem → QTreeWidgetItem
  genericTree : Layer → Parameter → QTreeWidgetItem → QTreeWidgetItem

/-- The two ways the tree builders can stop the program at their first lines. -/
inductive Fault where
  | nullDereference
  | assertionFailure
  deriving DecidableEq

/-- The first lines of `SettingsTreeManager::BuildValidationTree`: the layer
`VK_LAYER_KHRONOS_validation` is looked up in `available_layers` and
`assert(validation_layer != nullptr)` is checked. The rest of the method builds
the widgets of the layer under `parent` (`validationTree`). -/
def BuildValidationTree (c : Collaborators) (available_layers : List Layer)
    (parent : QTreeWidgetItem) (parameter : Parameter) : Except Fault QTreeWidgetItem :=
  match c.FindByKey available_layers "VK_LAYER_KHRONOS_validation" with
  | none => Except.error Fault.assertionFailure
  | some validation_layer => Except.ok (c.validationTree validation_layer parameter parent)

/-- The first lines of `SettingsTreeManager::BuildGenericTree`: the result of
`FindByKey(available_layers, parameter.key.c_str())` is dereferenced without a
check. The rest of the method builds the widgets of the settings under `parent`
(`genericTree`). -/
def BuildGenericTree (c : Collaborators) (available_layers : List Layer)
    (parent : QTreeWidgetItem) (parameter : Parameter) : Except Fault QTreeWidgetItem :=
  match c.FindByKey available_layers parameter.key with
  | none => Except.error Fault.nullDereference
  | some layer => Except.ok (c.genericTree layer parameter parent)

/-- One iteration of the first loop of `CreateGUI` ("one top level item for each
layer"): the top-level item it adds, with the children it gets, or `none` when
the iteration ends at one of the first two `continue`. -/
def CreateGUI.layerItem (c : Collaborators) (available_layers : List Layer)
    (parameter : Parameter) : Except Fault (Option QTreeWidgetItem) :=
  if !c.IsPlatformSupported parameter.platform_flags then Except.ok none
  else if parameter.state ≠ LAYER_STATE_OVERRIDDEN then Except.ok none
  else
    let layer := c.FindByKey available_layers parameter.key
    let layer_text := parameter.key
    let layer_text :=
      match layer with
      | none => layer_text ++ " (Missing)"
      | some found =>
        if found.status ≠ c.STATUS_STABLE then
          layer_text ++ (" (" ++ c.GetToken found.status ++ ")")
        else layer_text
    let layer_item := QTreeWidgetItem.create.setText layer_text
    match layer with
    | none => Except.ok (some layer_item)
    | some found =>
      if parameter.settings.isEmpty then
        let layer_child_item := QTreeWidgetItem.create.setText "No User Settings"
        Except.ok (some (layer_item.addChild layer_child_item))
      else
        let layer_item :=
          if !found.presets.isEmpty then layer_item.addChild QTreeWidgetItem.create
          else layer_item
        if parameter.key = "VK_LAYER_KHRONOS_validation" then
          match BuildValidationTree c available_layers layer_item parameter with
          | Except.error fault => Except.error fault
          | Except.ok built => Except.ok (some built)
        else
          match BuildGenericTree c available_layers layer_item parameter with
          | Except.error fault => Except.error fault
          | Except.ok built => Except.ok (some built)

/-- The first loop of `CreateGUI` over the parameters not yet visited; `tree` is
the list of top-level items of the tree widget so far. -/
def CreateGUI.layerLoop (c : Collaborators) (available_layers : List Layer) :
    List Parameter → List QTreeWidgetItem → Except Fault (List QTreeWidgetItem)
  | [], tree => Except.ok tree
  | parameter :: rest, tree =>
    match CreateGUI.layerItem c available_layers parameter with
    | Except.error fault => Except.error fault
    | Except.ok none => CreateGUI.layerLoop c available_layers rest tree
    | Except.ok (some layer_item) =>
      CreateGUI.layerLoop c available_layers rest (tree ++ [layer_item])

/-- One iteration of the second loop of `CreateGUI`: the child it adds to the
item "Excluded Layers:", or `none` when the iteration ends at a `continue`. -/
def CreateGUI.excludedItem (c : Collaborators) (available_layers : List Layer)
    (parameter : Parameter) : Option QTreeWidgetItem :=
  if !c.IsPlatformSupported parameter.platform_flags then none
  else if parameter.state ≠ LAYER_STATE_EXCLUDED then none
  else
    match c.FindByKey available_layers parameter.key with
    | none => none
    | some _ => some (QTreeWidgetItem.create.setText parameter.key)

/-- The second loop of `CreateGUI` over the parameters not yet visited. -/
def CreateGUI.excludedLoop (c : Collaborators) (available_layers : List Layer) :
    List Parameter → QTreeWidgetItem → QTreeWidgetItem
  | [], excluded_layers => excluded_layers
  | parameter :: rest, excluded_layers =>
    match CreateGUI.excludedItem c available_layers parameter with
    | none => CreateGUI.excludedLoop c available_layers rest excluded_layers
    | some layer_item =>
      CreateGUI.excludedLoop c available_layers rest (excluded_layers.addChild layer_item)

/-- The method `SettingsTreeManager::CreateGUI`, from `_settings_tree->clear()`
to the end of the block that builds the items: the list of top-level items of
the tree widget, or the fault that stops a tree builder. The active
configuration is `configuration` and `configurator.layers.available_layers` is
`available_layers`. The calls after the block (`resizeColumnToContents`,
`SetTreeState`, `blockSignals`) add, remove and rename no item. -/
def CreateGUI (c : Collaborators) (available_layers : List Layer)
    (configuration : Configuration) : Except Fault (List QTreeWidgetItem) :=
  let tree : List QTreeWidgetItem := []
  if !c.HasOverride configuration then
    let item := QTreeWidgetItem.create.setText "No overridden or excluded layer"
    Except.ok (tree ++ [item])
  else
    let overridden_layer_count := c.CountOverriddenLayers configuration.parameters
    let tree :=
      if overridden_layer_count > 1 then
        tree ++ [QTreeWidgetItem.create.setText "Vulkan Applications"]
      else tree
    match CreateGUI.layerLoop c available_layers configuration.parameters tree with
    | Except.error fault => Except.error fault
    | Except.ok tree =>
      let tree :=
        if overridden_layer_count > 1 then
          tree ++ [QTreeWidgetItem.create.setText "Vulkan Drivers"]
        else tree
      let excluded_layer_count :=
        c.CountExcludedLayers configuration.parameters available_layers
      if excluded_layer_count > 0 then
        let excluded_layers :=
          (QTreeWidgetItem.create.setText "Excluded Layers:").setExpanded true
        let excluded_layers :=
          CreateGUI.excludedLoop c available_layers configuration.parameters excluded_layers
        Except.ok (tree ++ [excluded_layers])
      else Except.ok tree

/-- An installed layer with the given key: stable, no preset, one setting. -/
def installedLayer (key : String) : Layer where
  key := key
  status := 0
  description := "installed"
  presets := []
  settings := [sampleSetting "stdout"]

/-- Collaborators for the examples: every platform flag is supported,
`FindByKey` is the first layer with the key, status 0 is stable, a
configuration has an override when it has a parameter that is not
application-controlled, the counts count the parameters in each state, and the
tree builders add one item named after what they build. -/
def sampleCollaborators : Collaborators where
  IsPlatformSupported := fun _ => true
  FindByKey := fun layers key => layers.find? (fun layer => layer.key = key)
  STATUS_STABLE := 0
  GetToken := fun _ => "BETA"
  HasOverride := fun configuration =>
    configuration.parameters.any
      (fun parameter => parameter.state ≠ LAYER_STATE_APPLICATION_CONTROLLED)
  CountOverriddenLayers := fun parameters =>
    (parameters.filter (fun parameter => parameter.state = LAYER_STATE_OVERRIDDEN)).length
  CountExcludedLayers := fun parameters _ =>
    (parameters.filter (fun parameter => parameter.state = LAYER_STATE_EXCLUDED)).length
  validationTree := fun _ _ parent =>
    parent.addChild (QTreeWidgetItem.create.setText "Validation Areas")
  genericTree := fun _ _ parent =>
    parent.addChild (QTreeWidgetItem.create.setText "settings")

/-- A configuration that overrides an installed layer and a missing one and
excludes an installed layer and a missing one, while only
`VK_LAYER_LUNARG_api_dump` and `VK_LAYER_LUNARG_monitor` are installed. -/
def configurationWithMissing : Configuration where
  parameters :=
    [⟨"VK_LAYER_LUNARG_api_dump", LAYER_STATE_OVERRIDDEN, 0, [sampleSetting "stdout"]⟩,
     ⟨"VK_LAYER_LUNARG_gone", LAYER_STATE_OVERRIDDEN, 0, [sampleSetting "stdout"]⟩,
     ⟨"VK_LAYER_LUNARG_monitor", LAYER_STATE_EXCLUDED, 0, []⟩,
     ⟨"VK_LAYER_LUNARG_lost", LAYER_STATE_EXCLUDED, 0, []⟩]
  setting_tree_state := []

/-- The layers installed in the example. -/
def installedLayers : List Layer :=
  [installedLayer "VK_LAYER_LUNARG_api_dump", installedLayer "VK_LAYER_LUNARG_monitor"]

end SettingsTreeManager

/-! ## The collapse loop in closed form -/

theorem rerankFrom_length (start : Nat) (layers : List Layer) :
    (rerankFrom start layers).length = layers.length := by
  induction layers generalizing start with
  | nil => rfl
  | cons layer rest ih => simp [rerankFrom, ih]

theorem rerankFrom_map_rank (start : Nat) (layers : List Layer) :
    (rerankFrom start layers).map (fun layer => layer._rank)
      = (List.range layers.length).map (fun i => start + i) := by
  induction layers generalizing start with
  | nil => rfl
  | cons layer rest ih =>
    simp only [rerankFrom, List.map_cons, List.length_cons, List.range_succ_eq_map,
      List.map_map, ih]
    simp only [Nat.add_zero, List.cons.injEq, true_and]
    apply List.map_congr_left
    intro i _
    simp only [Function.comp_apply]
    omega

theorem rerankFrom_map_withoutRank (start : Nat) (layers : List Layer) :
    (rerankFrom start layers).map Layer.withoutRank = layers.map Layer.withoutRank := by
  induction layers generalizing start with
  | nil => rfl
  | cons layer rest ih => simp [rerankFrom, ih, Layer.withoutRank]

theorem rerankFrom_map_name (start : Nat) (layers : List Layer) :
    (rerankFrom start layers).map (fun layer => layer._name)
      = layers.map (fun layer => layer._name) := by
  induction layers generalizing start with
  | nil => rfl
  | cons layer rest ih => simp [rerankFrom, ih]

theorem rerankFrom_state (start : Nat) (layers : List Layer) (s : LayerState)
    (h : ∀ layer ∈ layers, layer.state = s) :
    ∀ layer ∈ rerankFrom start layers, layer.state = s := by
  induction layers generalizing start with
  | nil => simp [rerankFrom]
  | cons x rest ih =>
    intro layer hmem
    simp only [rerankFrom, List.mem_cons] at hmem
    rcases hmem with rfl | hmem
    · exact h x (List.mem_cons_self _ _)
    · exact ih (start + 1) (fun l hl => h l (List.mem_cons_of_mem _ hl)) layer hmem

theorem rerankFrom_idem (start other : Nat) (layers : List Layer) :
    rerankFrom start (rerankFrom other layers) = rerankFrom start layers := by
  induction layers generalizing start other with
  | nil => rfl
  | cons layer rest ih => simp [rerankFrom, ih]

/-- The loop of `CollapseConfiguration` in closed form: the names of the
EXCLUDED entries are appended to the exclusion list, the OVERRIDDEN entries are
appended to `collapsed_layers` with ranks counted up from `new_rank`. -/
theorem collapse_loop_eq (layers : List Layer) (new_rank : Nat) (excluded : List String)
    (collapsed : List Layer) :
    CollapseConfiguration.loop layers new_rank excluded collapsed
      = (excluded ++ (layers.filter Layer.isExcluded).map (fun layer => layer._name),
         collapsed ++ rerankFrom new_rank (layers.filter Layer.isOverridden)) := by
  induction layers generalizing new_rank excluded collapsed with
  | nil => simp [CollapseConfiguration.loop, rerankFrom]
  | cons layer rest ih =>
    cases hs : layer.state <;>
      simp [CollapseConfiguration.loop, hs, ih, Layer.isExcluded, Layer.isOverridden,
        rerankFrom]

theorem collapse_overridden (C : Configuration) :
    C.CollapseConfiguration._overridden_layers
      = rerankFrom 0 (C._overridden_layers.filter Layer.isOverridden) := by
  simp [Configuration.CollapseConfiguration, collapse_loop_eq]

theorem collapse_excluded (C : Configuration) :
    C.CollapseConfiguration._excluded_layers
      = (C._overridden_layers.filter Layer.isExcluded).map (fun layer => layer._name) := by
  simp [Configuration.CollapseConfiguration, collapse_loop_eq]

theorem collapse_overridden_state (C : Configuration) :
    ∀ layer ∈ C.CollapseConfiguration._overridden_layers,
      layer.state = LAYER_STATE_OVERRIDDEN := by
  rw [collapse_overridden]
  apply rerankFrom_state
  intro layer hmem
  simpa [Layer.isOverridden] using (List.mem_filter.mp hmem).2

theorem rerankFrom_get_rank (start : Nat) (layers : List Layer) (i : Nat)
    (h : i < (rerankFrom start layers).length) :
    ((rerankFrom start layers).get ⟨i, h⟩)._rank = start + i := by
  induction layers generalizing start i with
  | nil => simp [rerankFrom] at h
  | cons layer rest ih =>
    cases i with
    | zero => simp [rerankFrom]
    | succ j =>
      simp only [rerankFrom, List.length_cons, Nat.add_lt_add_iff_right] at h
      have hj := ih (start + 1) j h
      simp only [rerankFrom, List.get_eq_getElem, List.getElem_cons_succ] at hj ⊢
      omega

theorem filter_isOverridden_of_state (layers : List Layer)
    (h : ∀ layer ∈ layers, layer.state = LAYER_STATE_OVERRIDDEN) :
    layers.filter Layer.isOverridden = layers := by
  apply List.filter_eq_self.mpr
  intro layer hmem
  simp [Layer.isOverridden, h layer hmem]

theorem filter_isExcluded_of_state (layers : List Layer)
    (h : ∀ layer ∈ layers, layer.state = LAYER_STATE_OVERRIDDEN) :
    layers.filter Layer.isExcluded = [] := by
  apply List.filter_eq_nil_iff.mpr
  intro layer hmem
  simp [Layer.isExcluded, h layer hmem]

/-- A second collapse keeps the overridden entries of the first. -/
theorem collapse_collapse_overridden (C : Configuration) :
    C.CollapseConfiguration.CollapseConfiguration._overridden_layers
      = C.CollapseConfiguration._overridden_layers := by
  rw [collapse_overridden C.CollapseConfiguration,
    filter_isOverridden_of_state _ (collapse_overridden_state C), collapse_overridden C,
    rerankFrom_idem]

/-- A second collapse finds no EXCLUDED entry: its exclusion list is empty. -/
theorem collapse_collapse_excluded (C : Configuration) :
    C.CollapseConfiguration.CollapseConfiguration._excluded_layers = [] := by
  rw [collapse_excluded C.CollapseConfiguration,
    filter_isExcluded_of_state _ (collapse_overridden_state C)]
  rfl

/-! ## Collapse -/

/-- C1, as stated, fails: for the configuration whose only entry is B in state
EXCLUDED, one collapse gives the exclusion list `["B"]` and a second collapse
gives the empty exclusion list, so the two results differ. -/
theorem collapse_not_idempotent_on_excluded :
    onlyExcludedB.CollapseConfiguration._excluded_layers = ["B"] ∧
    onlyExcludedB.CollapseConfiguration.CollapseConfiguration._excluded_layers = [] ∧
    onlyExcludedB.CollapseConfiguration.CollapseConfiguration
      ≠ onlyExcludedB.CollapseConfiguration := by
  decide

/-- C1 (amended): applying `CollapseConfiguration` twice leaves
`_overridden_layers` (entries, order and ranks) as it is after applying it once;
`_excluded_layers` is the same after two applications as after one exactly when
no entry of the configuration has state EXCLUDED. -/
theorem collapse_twice_overridden_and_excluded (C : Configuration) :
    C.CollapseConfiguration.CollapseConfiguration._overridden_layers
        = C.CollapseConfiguration._overridden_layers ∧
    (C.CollapseConfiguration.CollapseConfiguration._excluded_layers
        = C.CollapseConfiguration._excluded_layers ↔
      ∀ layer ∈ C._overridden_layers, layer.state ≠ LAYER_STATE_EXCLUDED) := by
  refine ⟨collapse_collapse_overridden C, ?_⟩
  rw [collapse_collapse_excluded, collapse_excluded]
  constructor
  · intro h layer hmem hstate
    have hnil : C._overridden_layers.filter Layer.isExcluded = [] :=
      List.map_eq_nil_iff.mp h.symm
    have := List.filter_eq_nil_iff.mp hnil layer hmem
    simp [Layer.isExcluded, hstate] at this
  · intro h
    have hnil : C._overridden_layers.filter Layer.isExcluded = [] := by
      apply List.filter_eq_nil_iff.mpr
      intro layer hmem
      simp [Layer.isExcluded, h layer hmem]
    rw [hnil]
    rfl

/-- C2, as stated, fails: with two entries named A, the first OVERRIDDEN and the
second EXCLUDED, the name A is after the collapse both the name of the only
entry of `_overridden_layers` and the only element of `_excluded_layers`. -/
theorem collapse_same_name_in_both_lists :
    sameNameTwice.CollapseConfiguration._overridden_layers.map (fun layer => layer._name)
      = ["A"] ∧
    sameNameTwice.CollapseConfiguration._excluded_layers = ["A"] ∧
    ("A" ∈ sameNameTwice.CollapseConfiguration._overridden_layers.map
        (fun layer => layer._name) ∧
     "A" ∈ sameNameTwice.CollapseConfiguration._excluded_layers) := by
  decide

/-- C2 (amended): after `CollapseConfiguration` no layer name is both the name of
an entry of `_overridden_layers` and an element of `_excluded_layers`, if and
only if before the call no entry in state OVERRIDDEN had the same name as an
entry in state EXCLUDED. -/
theorem collapse_lists_disjoint_iff (C : Configuration) :
    (∀ name : String,
      ¬ (name ∈ C.CollapseConfiguration._overridden_layers.map (fun layer => layer._name) ∧
         name ∈ C.CollapseConfiguration._excluded_layers)) ↔
    (∀ a ∈ C._overridden_layers, ∀ b ∈ C._overridden_layers,
      a.state = LAYER_STATE_OVERRIDDEN → b.state = LAYER_STATE_EXCLUDED →
        a._name ≠ b._name) := by
  rw [collapse_overridden, collapse_excluded, rerankFrom_map_name]
  constructor
  · intro h a ha b hb hsa hsb hname
    apply h a._name
    constructor
    · exact List.mem_map.mpr ⟨a, List.mem_filter.mpr ⟨ha, by simp [Layer.isOverridden, hsa]⟩, rfl⟩
    · exact List.mem_map.mpr
        ⟨b, List.mem_filter.mpr ⟨hb, by simp [Layer.isExcluded, hsb]⟩, hname.symm⟩
  · rintro h name ⟨hov, hex⟩
    obtain ⟨a, ha, rfl⟩ := List.mem_map.mp hov
    obtain ⟨b, hb, hname⟩ := List.mem_map.mp hex
    have ha2 := List.mem_filter.mp ha
    have hb2 := List.mem_filter.mp hb
    exact h a ha2.1 b hb2.1 (by simpa [Layer.isOverridden] using ha2.2)
      (by simpa [Layer.isExcluded] using hb2.2) hname.symm

/-- C2 (amended), at the scenario of the spec (A overridden, B excluded, C
application-controlled): the names differ, so the two lists are disjoint. -/
theorem collapse_lists_disjoint_scenario :
    ∀ name : String,
      ¬ (name ∈ scenarioABC.CollapseConfiguration._overridden_layers.map
            (fun layer => layer._name) ∧
         name ∈ scenarioABC.CollapseConfiguration._excluded_layers) :=
  (collapse_lists_disjoint_iff scenarioABC).mpr (by decide)

/-- C3: after `CollapseConfiguration` the entry at every position `i` of
`_overridden_layers` has state OVERRIDDEN and rank `i`, and the ranks, read in
sequence order, are exactly `0, ..., k-1` with `k` the number of entries. -/
theorem collapse_state_and_rank (C : Configuration) (i : Nat)
    (h : i < C.CollapseConfiguration._overridden_layers.length) :
    (C.CollapseConfiguration._overridden_layers.get ⟨i, h⟩).state = LAYER_STATE_OVERRIDDEN ∧
    (C.CollapseConfiguration._overridden_layers.get ⟨i, h⟩)._rank = i ∧
    C.CollapseConfiguration._overridden_layers.map (fun layer => layer._rank)
      = List.range C.CollapseConfiguration._overridden_layers.length := by
  refine ⟨collapse_overridden_state C _ (List.get_mem _ _ _), ?_, ?_⟩
  · have hrank : ∀ (layers : List Layer) (heq : layers = rerankFrom 0
          (C._overridden_layers.filter Layer.isOverridden)) (hi : i < layers.length),
          (layers.get ⟨i, hi⟩)._rank = i := by
      intro layers heq hi
      subst heq
      simpa using rerankFrom_get_rank 0 _ i hi
    exact hrank _ (collapse_overridden C) h
  · rw [collapse_overridden, rerankFrom_map_rank, rerankFrom_length]
    simp

/-- C3 at the scenario of the spec: position 0 holds an OVERRIDDEN entry of
rank 0 and the ranks are those of `List.range`. -/
theorem collapse_state_and_rank_scenario :
    0 < scenarioABC.CollapseConfiguration._overridden_layers.length ∧
    (scenarioABC.CollapseConfiguration._overridden_layers.get
      ⟨0, by decide⟩).state = LAYER_STATE_OVERRIDDEN ∧
    (scenarioABC.CollapseConfiguration._overridden_layers.get ⟨0, by decide⟩)._rank = 0 ∧
    scenarioABC.CollapseConfiguration._overridden_layers.map (fun layer => layer._rank)
      = List.range scenarioABC.CollapseConfiguration._overridden_layers.length :=
  ⟨by decide, collapse_state_and_rank scenarioABC 0 (by decide)⟩

/-- C4: after `CollapseConfiguration`, `_overridden_layers` is, up to the ranks,
the list of the entries whose state was OVERRIDDEN, in their original order and
with every other field unchanged; entries in state EXCLUDED or
APPLICATION_CONTROLLED are gone. For entries `a`, `b`, `c` put in the states
OVERRIDDEN, EXCLUDED and APPLICATION_CONTROLLED, the result is `[a]` with rank 0
and the exclusion list is `[b._name]`. -/
theorem collapse_keeps_overridden_entries (C : Configuration) (a b c : Layer) :
    C.CollapseConfiguration._overridden_layers.map Layer.withoutRank
      = (C._overridden_layers.filter
          (fun layer => decide (layer.state = LAYER_STATE_OVERRIDDEN))).map Layer.withoutRank ∧
    ({ C with _overridden_layers :=
        [{ a with state := LAYER_STATE_OVERRIDDEN }, { b with state := LAYER_STATE_EXCLUDED },
         { c with state := LAYER_STATE_APPLICATION_CONTROLLED }] }
      : Configuration).CollapseConfiguration._overridden_layers
      = [{ a with state := LAYER_STATE_OVERRIDDEN, _rank := 0 }] ∧
    ({ C with _overridden_layers :=
        [{ a with state := LAYER_STATE_OVERRIDDEN }, { b with state := LAYER_STATE_EXCLUDED },
         { c with state := LAYER_STATE_APPLICATION_CONTROLLED }] }
      : Configuration).CollapseConfiguration._excluded_layers
      = [b._name] := by
  refine ⟨?_, rfl, rfl⟩
  rw [collapse_overridden, rerankFrom_map_withoutRank]
  rfl

/-- C5: after `CollapseConfiguration`, `_excluded_layers` is the list of the
names of the entries whose state was EXCLUDED, in sequence order, and it is the
same whatever `_excluded_layers` held before the call. -/
theorem collapse_recomputes_excluded (C : Configuration) (prior : List String) :
    C.CollapseConfiguration._excluded_layers
      = (C._overridden_layers.filter
          (fun layer => decide (layer.state = LAYER_STATE_EXCLUDED))).map
            (fun layer => layer._name) ∧
    ({ C with _excluded_layers := prior } : Configuration).CollapseConfiguration._excluded_layers
      = C.CollapseConfiguration._excluded_layers := by
  refine ⟨?_, ?_⟩
  · rw [collapse_excluded]
    rfl
  · rw [collapse_excluded, collapse_excluded]

/-! ## Validity -/

theorem overriddenResolve_iff (FindLayer : String → Option Layer) (layers : List Layer) :
    IsValid.overriddenResolve FindLayer layers = true ↔
      ∀ layer ∈ layers, FindLayer layer._name ≠ none := by
  induction layers with
  | nil => simp [IsValid.overriddenResolve]
  | cons layer rest ih =>
    cases hf : FindLayer layer._name <;> simp [IsValid.overriddenResolve, hf, ih]

theorem excludedResolve_iff (FindLayer : String → Option Layer) (names : List String) :
    IsValid.excludedResolve FindLayer names = true ↔
      ∀ name ∈ names, FindLayer name ≠ none := by
  induction names with
  | nil => simp [IsValid.excludedResolve]
  | cons name rest ih =>
    cases hf : FindLayer name <;> simp [IsValid.excludedResolve, hf, ih]

/-- The value of `IsValid`: at least one list is non-empty and both loops run to
their end. -/
theorem isValid_eq_true_iff (FindLayer : String → Option Layer) (C : Configuration) :
    C.IsValid FindLayer = true ↔
      (C._overridden_layers ≠ [] ∨ C._excluded_layers ≠ []) ∧
      (∀ layer ∈ C._overridden_layers, FindLayer layer._name ≠ none) ∧
      (∀ name ∈ C._excluded_layers, FindLayer name ≠ none) := by
  rw [← overriddenResolve_iff, ← excludedResolve_iff]
  unfold Configuration.IsValid
  cases hov : C._overridden_layers <;> cases hex : C._excluded_layers <;>
    cases h1 : IsValid.overriddenResolve FindLayer C._overridden_layers <;>
    cases h2 : IsValid.excludedResolve FindLayer C._excluded_layers <;>
    simp_all

/-- C6: for every registry lookup `FindLayer` and every Configuration, `IsValid`
returns true if and only if at least one of `_overridden_layers` and
`_excluded_layers` is non-empty and `FindLayer` resolves the name of every entry
of `_overridden_layers` and every element of `_excluded_layers`; otherwise it
returns false. -/
theorem isValid_characterisation (FindLayer : String → Option Layer) (C : Configuration) :
    (C.IsValid FindLayer = true ↔
      (C._overridden_layers ≠ [] ∨ C._excluded_layers ≠ []) ∧
      (∀ layer ∈ C._overridden_layers, FindLayer layer._name ≠ none) ∧
      (∀ name ∈ C._excluded_layers, FindLayer name ≠ none)) ∧
    (C.IsValid FindLayer = false ↔
      ¬ ((C._overridden_layers ≠ [] ∨ C._excluded_layers ≠ []) ∧
         (∀ layer ∈ C._overridden_layers, FindLayer layer._name ≠ none) ∧
         (∀ name ∈ C._excluded_layers, FindLayer name ≠ none))) := by
  refine ⟨isValid_eq_true_iff FindLayer C, ?_⟩
  rw [← isValid_eq_true_iff FindLayer C]
  cases C.IsValid FindLayer <;> simp

/-- C7: the constructor leaves `_overridden_layers` and `_excluded_layers` empty
and sets `_preset` to `VALIDATION_PRESET_NONE`, and `IsValid` returns false for
the constructed Configuration whatever the registry resolves. -/
theorem isValid_fresh_configuration (FindLayer : String → Option Layer) :
    Configuration.construct._overridden_layers = [] ∧
    Configuration.construct._excluded_layers = [] ∧
    Configuration.construct._preset = ValidationPreset.VALIDATION_PRESET_NONE ∧
    Configuration.construct.IsValid FindLayer = false := by
  refine ⟨rfl, rfl, rfl, rfl⟩

/-- C8, as stated, fails: in the freshly constructed Configuration every name in
both lists resolves (there is none) in the registry that knows A and B, and
`IsValid` returns false. -/
theorem isValid_false_though_all_names_resolve :
    (∀ layer ∈ Configuration.construct._overridden_layers, registryAB layer._name ≠ none) ∧
    (∀ name ∈ Configuration.construct._excluded_layers, registryAB name ≠ none) ∧
    Configuration.construct.IsValid registryAB = false := by
  decide

/-- C8 (amended): for every registry and every Configuration in which at least
one of `_overridden_layers` and `_excluded_layers` is non-empty, `IsValid`
returns true if all names in both lists resolve in the registry. -/
theorem isValid_of_nonempty_and_resolved (FindLayer : String → Option Layer)
    (C : Configuration)
    (hne : C._overridden_layers ≠ [] ∨ C._excluded_layers ≠ [])
    (hov : ∀ layer ∈ C._overridden_layers, FindLayer layer._name ≠ none)
    (hex : ∀ name ∈ C._excluded_layers, FindLayer name ≠ none) :
    C.IsValid FindLayer = true :=
  (isValid_eq_true_iff FindLayer C).mpr ⟨hne, hov, hex⟩

/-- C8 (amended), at the collapsed scenario of the spec (A overridden, B
excluded) with the registry that knows A and B. -/
theorem isValid_of_nonempty_and_resolved_scenario :
    (scenarioABC.CollapseConfiguration._overridden_layers ≠ [] ∨
      scenarioABC.CollapseConfiguration._excluded_layers ≠ []) ∧
    (∀ layer ∈ scenarioABC.CollapseConfiguration._overridden_layers,
      registryAB layer._name ≠ none) ∧
    (∀ name ∈ scenarioABC.CollapseConfiguration._excluded_layers, registryAB name ≠ none) ∧
    scenarioABC.CollapseConfiguration.IsValid registryAB = true :=
  ⟨by decide, by decide, by decide,
    isValid_of_nonempty_and_resolved registryAB scenarioABC.CollapseConfiguration
      (by decide) (by decide) (by decide)⟩

/-! ## Duplication -/

/-- C9: the Configuration returned by `DuplicateConfiguration` has the name,
file stem, description, exclusion list, preset and overridden layers (all
entries with all their fields, in the same order) of the receiver, and the
receiver is unchanged by the call. -/
theorem duplicate_copies_six_members (C : Configuration) :
    C.DuplicateConfiguration.2._name = C._name ∧
    C.DuplicateConfiguration.2._file = C._file ∧
    C.DuplicateConfiguration.2._description = C._description ∧
    C.DuplicateConfiguration.2._excluded_layers = C._excluded_layers ∧
    C.DuplicateConfiguration.2._preset = C._preset ∧
    C.DuplicateConfiguration.2._overridden_layers = C._overridden_layers ∧
    C.DuplicateConfiguration.1 = C := by
  refine ⟨rfl, rfl, rfl, rfl, rfl, rfl, rfl⟩

/-- C10 fails on the code: `DuplicateConfiguration` never assigns
`_setting_tree_state`, so the duplicate keeps the empty byte array of the
constructor. For a Configuration whose saved tree state is the two bytes `10`,
the duplicate has an empty tree state and is not equal to the source. -/
theorem duplicate_drops_setting_tree_state :
    (sampleConfiguration [] ["B"])._setting_tree_state = ['1', '0'] ∧
    (sampleConfiguration [] ["B"]).DuplicateConfiguration.2._setting_tree_state = [] ∧
    (sampleConfiguration [] ["B"]).DuplicateConfiguration.2 ≠ sampleConfiguration [] ["B"] := by
  decide

/-! ## Lookup and insertion of overridden layers -/

theorem findOverriddenLayer_loop_none (layer_name : String) (layers : List Layer) (i : Nat) :
    FindOverriddenLayer.loop layer_name layers i = none ↔
      ∀ layer ∈ layers, layer._name ≠ layer_name := by
  induction layers generalizing i with
  | nil => simp [FindOverriddenLayer.loop]
  | cons x rest ih =>
    by_cases hx : x._name = layer_name
    · simp [FindOverriddenLayer.loop, hx]
    · simp [FindOverriddenLayer.loop, hx, ih]

theorem findOverriddenLayer_loop_some (layer_name : String) (layers : List Layer)
    (i k : Nat) :
    FindOverriddenLayer.loop layer_name layers i = some k ↔
      i ≤ k ∧ (∃ layer, layers[k - i]? = some layer ∧ layer._name = layer_name) ∧
      ∀ m, m < k - i → ∀ layer, layers[m]? = some layer → layer._name ≠ layer_name := by
  induction layers generalizing i k with
  | nil => simp [FindOverriddenLayer.loop]
  | cons x rest ih =>
    by_cases hx : x._name = layer_name
    · simp only [FindOverriddenLayer.loop, hx, if_true, Option.some.injEq]
      constructor
      · intro hik
        subst hik
        simp [hx]
      · rintro ⟨hle, -, hbefore⟩
        by_contra hne
        have hpos : 0 < k - i := by omega
        exact hbefore 0 hpos x (by simp) hx
    · simp only [FindOverriddenLayer.loop, hx, if_false, ih]
      constructor
      · rintro ⟨hle, ⟨layer, hget, hname⟩, hbefore⟩
        have hk : k - i = (k - (i + 1)) + 1 := by omega
        refine ⟨by omega, ⟨layer, ?_, hname⟩, ?_⟩
        · rw [hk, List.getElem?_cons_succ]
          exact hget
        · intro m hm entry hentry
          cases m with
          | zero =>
            simp only [List.getElem?_cons_zero, Option.some.injEq] at hentry
            subst hentry
            exact hx
          | succ j =>
            rw [List.getElem?_cons_succ] at hentry
            exact hbefore j (by omega) entry hentry
      · rintro ⟨hle, ⟨layer, hget, hname⟩, hbefore⟩
        have hik : i ≠ k := by
          intro hik
          subst hik
          simp only [Nat.sub_self, List.getElem?_cons_zero, Option.some.injEq] at hget
          subst hget
          exact hx hname
        have hk : k - i = (k - (i + 1)) + 1 := by omega
        rw [hk, List.getElem?_cons_succ] at hget
        refine ⟨by omega, ⟨layer, hget, hname⟩, ?_⟩
        intro m hm entry hentry
        exact hbefore (m + 1) (by omega) entry (by rw [List.getElem?_cons_succ]; exact hentry)

/-- C12: `FindOverriddenLayer(name)` returns `nullptr` if and only if no entry
of `_overridden_layers` has that `_name`, and it returns the pointer to
position `i` if and only if the entry at `i` has that `_name` and no entry at a
smaller position has it; `_layer_path` plays no part. -/
theorem findOverriddenLayer_first_by_name (C : Configuration) (layer_name : String) :
    (C.FindOverriddenLayer layer_name = none ↔
      ∀ layer ∈ C._overridden_layers, layer._name ≠ layer_name) ∧
    (∀ i : Nat, C.FindOverriddenLayer layer_name = some i ↔
      (∃ layer, C._overridden_layers[i]? = some layer ∧ layer._name = layer_name) ∧
      ∀ j, j < i → ∀ layer, C._overridden_layers[j]? = some layer →
        layer._name ≠ layer_name) := by
  refine ⟨findOverriddenLayer_loop_none layer_name _ 0, ?_⟩
  intro i
  simp only [Configuration.FindOverriddenLayer, findOverriddenLayer_loop_some, Nat.sub_zero,
    Nat.zero_le, true_and]

theorem isOverriddenLayerAvailable_loop_iff (layer_name full_path : String)
    (layers : List Layer) :
    IsOverriddenLayerAvailable.loop layer_name full_path layers = true ↔
      ∃ layer ∈ layers, layer._name = layer_name ∧ layer._layer_path = full_path := by
  induction layers with
  | nil => simp [IsOverriddenLayerAvailable.loop]
  | cons x rest ih =>
    by_cases hx : x._name = layer_name ∧ x._layer_path = full_path
    · simp [IsOverriddenLayerAvailable.loop, hx]
    · simp only [IsOverriddenLayerAvailable.loop, hx, if_false, ih, List.mem_cons,
        exists_eq_or_imp, false_or]

/-- C13: `IsOverriddenLayerAvailable(name, path)` is true if and only if some
entry of `_overridden_layers` has both that `_name` and that `_layer_path`; it
is false if and only if every entry with that name has another `_layer_path`. -/
theorem isOverriddenLayerAvailable_iff (C : Configuration) (layer_name full_path : String) :
    (C.IsOverriddenLayerAvailable layer_name full_path = true ↔
      ∃ layer ∈ C._overridden_layers,
        layer._name = layer_name ∧ layer._layer_path = full_path) ∧
    (C.IsOverriddenLayerAvailable layer_name full_path = false ↔
      ∀ layer ∈ C._overridden_layers,
        layer._name = layer_name → layer._layer_path ≠ full_path) := by
  have htrue := isOverriddenLayerAvailable_loop_iff layer_name full_path C._overridden_layers
  refine ⟨htrue, ?_⟩
  rw [← Bool.not_eq_true, Configuration.IsOverriddenLayerAvailable, htrue]
  simp

/-- C14: `CreateOverriddenLayer(L)` makes `_overridden_layers` its previous
contents followed by `L` itself (all fields of `L`), returns the reference to
that new last entry, and leaves every other member of the Configuration
unchanged. -/
theorem createOverriddenLayer_appends (C : Configuration) (L : Layer) :
    (C.CreateOverriddenLayer L).1._overridden_layers = C._overridden_layers ++ [L] ∧
    (C.CreateOverriddenLayer L).2 + 1 = (C.CreateOverriddenLayer L).1._overridden_layers.length ∧
    (C.CreateOverriddenLayer L).1._overridden_layers[(C.CreateOverriddenLayer L).2]? = some L ∧
    (C.CreateOverriddenLayer L).1._excluded_layers = C._excluded_layers ∧
    (C.CreateOverriddenLayer L).1._name = C._name ∧
    (C.CreateOverriddenLayer L).1._file = C._file ∧
    (C.CreateOverriddenLayer L).1._description = C._description ∧
    (C.CreateOverriddenLayer L).1._setting_tree_state = C._setting_tree_state ∧
    (C.CreateOverriddenLayer L).1._preset = C._preset := by
  refine ⟨rfl, ?_, ?_, rfl, rfl, rfl, rfl, rfl, rfl⟩
  · simp [Configuration.CreateOverriddenLayer]
  · simp [Configuration.CreateOverriddenLayer]

/-- C15: `CreateOverriddenLayer` does not reject a duplicate. After one
`CreateOverriddenLayer(L)` the query
`IsOverriddenLayerAvailable(L._name, L._layer_path)` is true, and a second
`CreateOverriddenLayer(L)` grows `_overridden_layers` by one more entry: the
list ends with two entries equal to `L`. -/
theorem createOverriddenLayer_twice (C : Configuration) (L : Layer) :
    (C.CreateOverriddenLayer L).1.IsOverriddenLayerAvailable L._name L._layer_path = true ∧
    ((C.CreateOverriddenLayer L).1.CreateOverriddenLayer L).1._overridden_layers
      = C._overridden_layers ++ [L, L] ∧
    ((C.CreateOverriddenLayer L).1.CreateOverriddenLayer L).1._overridden_layers.length
      = (C.CreateOverriddenLayer L).1._overridden_layers.length + 1 := by
  refine ⟨?_, ?_, ?_⟩
  · rw [Configuration.IsOverriddenLayerAvailable, isOverriddenLayerAvailable_loop_iff]
    exact ⟨L, by simp [Configuration.CreateOverriddenLayer], rfl, rfl⟩
  · simp [Configuration.CreateOverriddenLayer]
  · simp [Configuration.CreateOverriddenLayer]

/-! ## Invariant I1 under the operations -/

/-- After a collapse, I1 holds exactly when no OVERRIDDEN entry had the name of
an EXCLUDED entry. -/
theorem collapse_I1_iff (C : Configuration) :
    C.CollapseConfiguration.I1 ↔
      ∀ a ∈ C._overridden_layers, ∀ b ∈ C._overridden_layers,
        a.state = LAYER_STATE_OVERRIDDEN → b.state = LAYER_STATE_EXCLUDED →
          a._name ≠ b._name := by
  have hnames : ∀ name : String,
      name ∈ (C.CollapseConfiguration._overridden_layers.map fun layer => layer._name) ↔
        ∃ a ∈ C._overridden_layers, a.state = LAYER_STATE_OVERRIDDEN ∧ a._name = name := by
    intro name
    rw [collapse_overridden, rerankFrom_map_name]
    simp [List.mem_filter, Layer.isOverridden, and_assoc]
  have hex : ∀ name : String, name ∈ C.CollapseConfiguration._excluded_layers ↔
      ∃ b ∈ C._overridden_layers, b.state = LAYER_STATE_EXCLUDED ∧ b._name = name := by
    intro name
    rw [collapse_excluded]
    simp [List.mem_filter, Layer.isExcluded, and_assoc]
  constructor
  · intro h a ha b hb hsa hsb hname
    obtain ⟨entry, hentry, hentryname⟩ :=
      List.mem_map.mp ((hnames a._name).mpr ⟨a, ha, hsa, rfl⟩)
    apply h entry hentry
    rw [hentryname]
    exact (hex a._name).mpr ⟨b, hb, hsb, hname.symm⟩
  · intro h entry hentry hmem
    obtain ⟨a, ha, hsa, hname⟩ := (hnames entry._name).mp (List.mem_map.mpr ⟨entry, hentry, rfl⟩)
    obtain ⟨b, hb, hsb, hbname⟩ := (hex entry._name).mp hmem
    exact h a ha b hb hsa hsb (hname.trans hbname.symm)

/-- C16, as stated, fails. A Configuration that excludes B and overrides nothing
satisfies I1, and does not after `CreateOverriddenLayer` of a layer named B. A
Configuration with two entries named A, one OVERRIDDEN and one EXCLUDED, and an
empty exclusion list satisfies I1, and does not after `CollapseConfiguration`. -/
theorem I1_not_preserved_by_create_nor_collapse :
    excludesB.I1 ∧
    ¬ (excludesB.CreateOverriddenLayer
        (sampleLayer "B" "/layers" LAYER_STATE_OVERRIDDEN)).1.I1 ∧
    sameNameTwice.I1 ∧
    ¬ sameNameTwice.CollapseConfiguration.I1 := by
  decide

/-- C16 (amended): for a Configuration in which no layer name is in both
`_overridden_layers` and `_excluded_layers`, the same holds of the result of
`DuplicateConfiguration` and of the receiver after it; it holds after
`CreateOverriddenLayer(L)` exactly when the name of `L` is not an element of
`_excluded_layers`; and it holds after `CollapseConfiguration` exactly when no
entry in state OVERRIDDEN has the same name as an entry in state EXCLUDED. -/
theorem I1_under_operations (C : Configuration) (L : Layer) (h : C.I1) :
    C.DuplicateConfiguration.2.I1 ∧
    C.DuplicateConfiguration.1.I1 ∧
    ((C.CreateOverriddenLayer L).1.I1 ↔ L._name ∉ C._excluded_layers) ∧
    (C.CollapseConfiguration.I1 ↔
      ∀ a ∈ C._overridden_layers, ∀ b ∈ C._overridden_layers,
        a.state = LAYER_STATE_OVERRIDDEN → b.state = LAYER_STATE_EXCLUDED →
          a._name ≠ b._name) := by
  refine ⟨h, h, ?_, collapse_I1_iff C⟩
  constructor
  · intro hcreate
    exact hcreate L (by simp [Configuration.CreateOverriddenLayer])
  · intro hL layer hmem
    simp only [Configuration.CreateOverriddenLayer, List.mem_append, List.mem_singleton]
      at hmem
    rcases hmem with hmem | rfl
    · exact h layer hmem
    · exact hL

/-- C16 (amended), at the collapsed scenario of the spec (A overridden, B
excluded) and a source layer named C: I1 holds before, and after each of the
three operations. -/
theorem I1_under_operations_scenario :
    scenarioABC.CollapseConfiguration.I1 ∧
    scenarioABC.CollapseConfiguration.DuplicateConfiguration.2.I1 ∧
    scenarioABC.CollapseConfiguration.DuplicateConfiguration.1.I1 ∧
    (scenarioABC.CollapseConfiguration.CreateOverriddenLayer
      (sampleLayer "C" "/layers" LAYER_STATE_OVERRIDDEN)).1.I1 ∧
    scenarioABC.CollapseConfiguration.CollapseConfiguration.I1 :=
  have h := I1_under_operations scenarioABC.CollapseConfiguration
    (sampleLayer "C" "/layers" LAYER_STATE_OVERRIDDEN) (by decide)
  ⟨by decide, h.1, h.2.1, h.2.2.1.mpr (by decide), h.2.2.2.mpr (by decide)⟩

/-! ## Collapse: old ranks, repeated names, repeated calls -/

theorem collapse_loop_withoutRank (layers : List Layer) (new_rank : Nat)
    (excluded : List String) (collapsed : List Layer) :
    CollapseConfiguration.loop (layers.map Layer.withoutRank) new_rank excluded collapsed
      = CollapseConfiguration.loop layers new_rank excluded collapsed := by
  induction layers generalizing new_rank excluded collapsed with
  | nil => rfl
  | cons layer rest ih =>
    cases hs : layer.state <;>
      simp [CollapseConfiguration.loop, Layer.withoutRank, hs, ih]

/-- C17: two Configurations whose `_overridden_layers` agree in every entry up
to the value of `_rank` have the same `_overridden_layers`, ranks included, and
the same `_excluded_layers` after `CollapseConfiguration`. -/
theorem collapse_independent_of_old_ranks (C C' : Configuration)
    (h : C._overridden_layers.map Layer.withoutRank
      = C'._overridden_layers.map Layer.withoutRank) :
    C.CollapseConfiguration._overridden_layers = C'.CollapseConfiguration._overridden_layers ∧
    C.CollapseConfiguration._excluded_layers = C'.CollapseConfiguration._excluded_layers := by
  have hloop : CollapseConfiguration.loop C._overridden_layers 0 [] []
      = CollapseConfiguration.loop C'._overridden_layers 0 [] [] := by
    rw [← collapse_loop_withoutRank C._overridden_layers, h, collapse_loop_withoutRank]
  simp [Configuration.CollapseConfiguration, hloop]

/-- C17 at the scenario of the spec, once with ranks 7, 7, 7 and once with ranks
3, 0, 7. -/
theorem collapse_independent_of_old_ranks_scenario :
    scenarioABC._overridden_layers.map Layer.withoutRank
      = scenarioABCOtherRanks._overridden_layers.map Layer.withoutRank ∧
    scenarioABC._overridden_layers ≠ scenarioABCOtherRanks._overridden_layers ∧
    scenarioABC.CollapseConfiguration._overridden_layers
      = scenarioABCOtherRanks.CollapseConfiguration._overridden_layers ∧
    scenarioABC.CollapseConfiguration._excluded_layers
      = scenarioABCOtherRanks.CollapseConfiguration._excluded_layers :=
  ⟨by decide, by decide,
    collapse_independent_of_old_ranks scenarioABC scenarioABCOtherRanks (by decide)⟩

/-- C18, as stated, fails: with two entries named B, both EXCLUDED, the
exclusion list after the collapse holds B twice. -/
theorem collapse_excluded_name_twice :
    excludedTwice.CollapseConfiguration._excluded_layers = ["B", "B"] ∧
    ¬ excludedTwice.CollapseConfiguration._excluded_layers.Nodup := by
  decide

/-- C18 (amended): after `CollapseConfiguration`, `_excluded_layers` contains no
name more than once if and only if no two entries in state EXCLUDED had the
same name before the call. -/
theorem collapse_excluded_nodup_iff (C : Configuration) :
    C.CollapseConfiguration._excluded_layers.Nodup ↔
      C._overridden_layers.Pairwise (fun a b =>
        a.state = LAYER_STATE_EXCLUDED → b.state = LAYER_STATE_EXCLUDED →
          a._name ≠ b._name) := by
  have hpred : Layer.isExcluded
      = fun layer : Layer => decide (layer.state = LAYER_STATE_EXCLUDED) := rfl
  rw [collapse_excluded, List.Nodup, List.pairwise_map, hpred, List.pairwise_filter]

/-- C18 (amended), at the scenario of the spec: B is the only EXCLUDED entry and
the exclusion list has no repetition. -/
theorem collapse_excluded_nodup_scenario :
    scenarioABC.CollapseConfiguration._excluded_layers.Nodup :=
  (collapse_excluded_nodup_iff scenarioABC).mpr (by decide)

/-- C20: a second `CollapseConfiguration` directly after a first one leaves
`_overridden_layers` unchanged (entries, order and ranks) and leaves
`_excluded_layers` empty; no entry left by the first call is in state
EXCLUDED. -/
theorem second_collapse_keeps_overridden_empties_excluded (C : Configuration) :
    C.CollapseConfiguration.CollapseConfiguration._overridden_layers
      = C.CollapseConfiguration._overridden_layers ∧
    C.CollapseConfiguration.CollapseConfiguration._excluded_layers = [] ∧
    (C.CollapseConfiguration._overridden_layers.filter
      (fun layer => decide (layer.state = LAYER_STATE_EXCLUDED))) = [] := by
  refine ⟨collapse_collapse_overridden C, collapse_collapse_excluded C, ?_⟩
  exact filter_isExcluded_of_state _ (collapse_overridden_state C)

/-! ## Collapse: distinct names, untouched members -/

/-- C21: for a Configuration whose entries have pairwise distinct names, after
`CollapseConfiguration` no name is both an element of `_excluded_layers` and
the name of an entry of `_overridden_layers`, and `_excluded_layers` contains
no name twice. -/
theorem collapse_of_distinct_names (C : Configuration)
    (h : (C._overridden_layers.map (fun layer => layer._name)).Nodup) :
    (∀ name : String,
      ¬ (name ∈ C.CollapseConfiguration._excluded_layers ∧
         name ∈ C.CollapseConfiguration._overridden_layers.map (fun layer => layer._name))) ∧
    C.CollapseConfiguration._excluded_layers.Nodup := by
  constructor
  · have hI1 : C.CollapseConfiguration.I1 := by
      rw [collapse_I1_iff]
      intro a ha b hb hsa hsb hname
      have hab : a = b := List.inj_on_of_nodup_map h ha hb hname
      rw [hab, hsb] at hsa
      exact LayerState.noConfusion hsa
    rintro name ⟨hex, hov⟩
    obtain ⟨entry, hentry, rfl⟩ := List.mem_map.mp hov
    exact hI1 entry hentry hex
  · rw [collapse_excluded]
    exact h.sublist ((List.filter_sublist _).map _)

/-- C21 at the scenario of the spec: the names A, B and C are distinct. -/
theorem collapse_of_distinct_names_scenario :
    (scenarioABC._overridden_layers.map (fun layer => layer._name)).Nodup ∧
    ((∀ name : String,
      ¬ (name ∈ scenarioABC.CollapseConfiguration._excluded_layers ∧
         name ∈ scenarioABC.CollapseConfiguration._overridden_layers.map
           (fun layer => layer._name))) ∧
     scenarioABC.CollapseConfiguration._excluded_layers.Nodup) :=
  ⟨by decide, collapse_of_distinct_names scenarioABC (by decide)⟩

/-- C22: `CollapseConfiguration` changes only `_overridden_layers` and
`_excluded_layers`: `_name`, `_file`, `_description`, `_preset` and
`_setting_tree_state` are the same after the call as before it. -/
theorem collapse_leaves_other_members (C : Configuration) :
    C.CollapseConfiguration._name = C._name ∧
    C.CollapseConfiguration._file = C._file ∧
    C.CollapseConfiguration._description = C._description ∧
    C.CollapseConfiguration._preset = C._preset ∧
    C.CollapseConfiguration._setting_tree_state = C._setting_tree_state ∧
    C.CollapseConfiguration
      = { C with _overridden_layers := C.CollapseConfiguration._overridden_layers,
                 _excluded_layers := C.CollapseConfiguration._excluded_layers } := by
  refine ⟨rfl, rfl, rfl, rfl, rfl, rfl⟩

/-! ## `Layer::CopyLayer` of `vkconfig_core` -/

/-- C29: after `s.CopyLayer(&d)` each of the twelve data members of `d` equals
the corresponding member of `s`, so that `d` equals `s`, and `s` is
unchanged. -/
theorem copyLayer_copies_all_members (s d : Core.Layer) :
    (s.CopyLayer d).2._file_format_version = s._file_format_version ∧
    (s.CopyLayer d).2._name = s._name ∧
    (s.CopyLayer d).2._type = s._type ∧
    (s.CopyLayer d).2._library_path = s._library_path ∧
    (s.CopyLayer d).2._api_version = s._api_version ∧
    (s.CopyLayer d).2._implementation_version = s._implementation_version ∧
    (s.CopyLayer d).2._description = s._description ∧
    (s.CopyLayer d).2._layer_path = s._layer_path ∧
    (s.CopyLayer d).2._layer_type = s._layer_type ∧
    (s.CopyLayer d).2._layer_settings = s._layer_settings ∧
    (s.CopyLayer d).2._state = s._state ∧
    (s.CopyLayer d).2._rank = s._rank ∧
    (s.CopyLayer d).2 = s ∧
    (s.CopyLayer d).1 = s := by
  refine ⟨rfl, rfl, rfl, rfl, rfl, rfl, rfl, rfl, rfl, rfl, rfl, rfl, rfl, rfl⟩

/-! ## The saved tree state -/

open SettingsTreeManager in
mutual
theorem getTreeState_appends (byte_array : QByteArray) :
    ∀ t : QTreeWidgetItem,
      GetTreeState byte_array t
        = byte_array ++ t.preorder.map (fun entry => treeStateByte entry.2)
  | ⟨_, expanded, children⟩ => by
    simp only [GetTreeState, QTreeWidgetItem.preorder, List.map_cons]
    rw [getTreeState_children_appends _ children]
    simp [treeStateByte]
theorem getTreeState_children_appends (byte_array : QByteArray) :
    ∀ ts : List QTreeWidgetItem,
      GetTreeState.children byte_array ts
        = byte_array ++ (QTreeWidgetItem.preorderAll ts).map
            (fun entry => treeStateByte entry.2)
  | [] => by simp [GetTreeState.children, QTreeWidgetItem.preorderAll]
  | child :: rest => by
    simp only [GetTreeState.children, QTreeWidgetItem.preorderAll, List.map_append]
    rw [getTreeState_children_appends _ rest, getTreeState_appends byte_array child]
    simp
end

theorem treeStateByte_eq_one (expanded : Bool) : (treeStateByte expanded == '1') = expanded := by
  cases expanded <;> decide

theorem read_after_front (pre suf : QByteArray) (byte : Char) :
    QByteArray.read (pre ++ byte :: suf) pre.length = byte := by
  have h : (pre ++ byte :: suf)[pre.length]? = some byte := by
    rw [List.getElem?_append_right (Nat.le_refl _)]
    simp
  simp [QByteArray.read, List.getD_eq_getElem?_getD, h]

open SettingsTreeManager in
mutual
theorem setTreeState_of_saved (byte_array pre suf : QByteArray) (index : Nat)
    (reads : List Nat) :
    ∀ s t : QTreeWidgetItem, s.shape = t.shape → index = pre.length →
      byte_array = pre ++ (t.preorder.map (fun entry => treeStateByte entry.2) ++ suf) →
      (SetTreeState byte_array index reads s).index = index + t.preorder.length ∧
      (SetTreeState byte_array index reads s).top_item.flagsOnly = t.flagsOnly ∧
      (SetTreeState byte_array index reads s).top_item.textsOnly = s.textsOnly ∧
      (SetTreeState byte_array index reads s).reads
        = reads ++ List.range' index t.preorder.length
  | ⟨sText, sExpanded, sChildren⟩, ⟨tText, tExpanded, tChildren⟩, hshape, hindex, hbytes => by
    have hchildren : QTreeWidgetItem.relabelAll (fun _ _ => ("", false)) sChildren
        = QTreeWidgetItem.relabelAll (fun _ _ => ("", false)) tChildren := by
      simp only [QTreeWidgetItem.shape, QTreeWidgetItem.relabel,
        QTreeWidgetItem.mk.injEq, true_and] at hshape
      exact hshape
    have hbytes2 : byte_array = (pre ++ [treeStateByte tExpanded]) ++
        ((QTreeWidgetItem.preorderAll tChildren).map (fun entry => treeStateByte entry.2)
          ++ suf) := by
      rw [hbytes]
      simp [QTreeWidgetItem.preorder]
    have hlen : ¬ index > byte_array.length := by
      rw [hbytes2, hindex]
      simp only [List.length_append, List.length_cons, List.length_nil]
      omega
    have hread : byte_array.read index = treeStateByte tExpanded := by
      rw [hbytes, hindex]
      simp only [QTreeWidgetItem.preorder, List.map_cons, List.cons_append]
      exact read_after_front pre _ _
    have ih := setTreeState_children_of_saved byte_array (pre ++ [treeStateByte tExpanded])
      suf (index + 1) (reads ++ [index]) sChildren tChildren hchildren
      (by simp [hindex]) hbytes2
    obtain ⟨h1, h2, h3, h4⟩ := ih
    simp only [SetTreeState, hlen, if_false, QTreeWidgetItem.preorder, List.length_cons]
    refine ⟨?_, ?_, ?_, ?_⟩
    · rw [h1]
      omega
    · simp only [QTreeWidgetItem.flagsOnly, QTreeWidgetItem.relabel, hread,
        treeStateByte_eq_one, QTreeWidgetItem.mk.injEq, true_and]
      exact h2
    · simp only [QTreeWidgetItem.textsOnly, QTreeWidgetItem.relabel,
        QTreeWidgetItem.mk.injEq, true_and]
      exact h3
    · rw [h4, List.append_assoc, List.singleton_append, ← List.range'_succ]
theorem setTreeState_children_of_saved (byte_array pre suf : QByteArray) (index : Nat)
    (reads : List Nat) :
    ∀ ss ts : List QTreeWidgetItem,
      QTreeWidgetItem.relabelAll (fun _ _ => ("", false)) ss
        = QTreeWidgetItem.relabelAll (fun _ _ => ("", false)) ts →
      index = pre.length →
      byte_array = pre ++ ((QTreeWidgetItem.preorderAll ts).map
        (fun entry => treeStateByte entry.2) ++ suf) →
      (SetTreeState.children byte_array index reads ss).index
        = index + (QTreeWidgetItem.preorderAll ts).length ∧
      QTreeWidgetItem.relabelAll (fun _ expanded => ("", expanded))
          (SetTreeState.children byte_array index reads ss).children
        = QTreeWidgetItem.relabelAll (fun _ expanded => ("", expanded)) ts ∧
      QTreeWidgetItem.relabelAll (fun text _ => (text, false))
          (SetTreeState.children byte_array index reads ss).children
        = QTreeWidgetItem.relabelAll (fun text _ => (text, false)) ss ∧
      (SetTreeState.children byte_array index reads ss).reads
        = reads ++ List.range' index (QTreeWidgetItem.preorderAll ts).length
  | [], [], _, _, _ => by
    simp [SetTreeState.children, QTreeWidgetItem.preorderAll, QTreeWidgetItem.relabelAll]
  | [], _ :: _, hshape, _, _ => by
    simp [QTreeWidgetItem.relabelAll] at hshape
  | _ :: _, [], hshape, _, _ => by
    simp [QTreeWidgetItem.relabelAll] at hshape
  | s :: sRest, t :: tRest, hshape, hindex, hbytes => by
    simp only [QTreeWidgetItem.relabelAll, List.cons.injEq] at hshape
    have hfirst := setTreeState_of_saved byte_array pre
      ((QTreeWidgetItem.preorderAll tRest).map (fun entry => treeStateByte entry.2) ++ suf)
      index reads s t hshape.1 hindex
      (by rw [hbytes]; simp [QTreeWidgetItem.preorderAll])
    obtain ⟨f1, f2, f3, f4⟩ := hfirst
    have hrest := setTreeState_children_of_saved byte_array
      (pre ++ t.preorder.map (fun entry => treeStateByte entry.2)) suf
      (SetTreeState byte_array index reads s).index
      (SetTreeState byte_array index reads s).reads sRest tRest hshape.2
      (by rw [f1, hindex]; simp)
      (by rw [hbytes]; simp [QTreeWidgetItem.preorderAll])
    obtain ⟨r1, r2, r3, r4⟩ := hrest
    simp only [SetTreeState.children, QTreeWidgetItem.preorderAll, List.length_append,
      QTreeWidgetItem.relabelAll, List.cons.injEq]
    refine ⟨?_, ⟨f2, r2⟩, ⟨f3, r3⟩, ?_⟩
    · rw [r1, f1]
      omega
    · rw [r4, f4, f1, List.append_assoc, List.range'_append_1, Nat.add_comm]
end

/-- C23 fails on the code: the guard is `index > byte_array.length()`, so with
`index` equal to the length the byte at `index` is read all the same. On an
empty byte array and index 0, for a root with two children, position 0 is read,
the root is set to not expanded (the byte read is not `'1'`), only the two
children are expanded, and 1 is returned. With the one byte `1` saved, the read
of position 1 is past the end and the first child is left not expanded. -/
theorem setTreeState_reads_at_length :
    (SettingsTreeManager.SetTreeState [] 0 [] threeItems).reads = [0] ∧
    (SettingsTreeManager.SetTreeState [] 0 [] threeItems).top_item.preorder
      = [("root", false), ("first", true), ("second", true)] ∧
    (SettingsTreeManager.SetTreeState [] 0 [] threeItems).index = 1 ∧
    (SettingsTreeManager.SetTreeState ['1'] 0 [] threeItems).reads = [0, 1] ∧
    (SettingsTreeManager.SetTreeState ['1'] 0 [] threeItems).top_item.preorder
      = [("root", true), ("first", false), ("second", true)] := by
  decide

/-- C24: tree-state round trip. `GetTreeState` appends to the byte array exactly
one byte per item of `t`, in pre-order, `'1'` for an expanded item and `'0'`
otherwise. `SetTreeState` on the bytes saved for `t`, from index 0, on a tree
`s` of the same shape returns the number of items, gives every item the
expanded flag of the corresponding item of `t`, keeps the texts of `s`, and
reads the positions `0, ..., n-1` only. -/
theorem treeState_round_trip (byte_array : QByteArray) (s t : QTreeWidgetItem)
    (h : s.shape = t.shape) :
    SettingsTreeManager.GetTreeState byte_array t
      = byte_array ++ t.preorder.map (fun entry => if entry.2 then '1' else '0') ∧
    (SettingsTreeManager.GetTreeState [] t).length = t.preorder.length ∧
    (SettingsTreeManager.SetTreeState (SettingsTreeManager.GetTreeState [] t) 0 [] s).index
      = t.preorder.length ∧
    (SettingsTreeManager.SetTreeState (SettingsTreeManager.GetTreeState [] t) 0 []
      s).top_item.flagsOnly = t.flagsOnly ∧
    (SettingsTreeManager.SetTreeState (SettingsTreeManager.GetTreeState [] t) 0 []
      s).top_item.textsOnly = s.textsOnly ∧
    (SettingsTreeManager.SetTreeState (SettingsTreeManager.GetTreeState [] t) 0 [] s).reads
      = List.range t.preorder.length := by
  have hsaved := setTreeState_of_saved (SettingsTreeManager.GetTreeState [] t) [] [] 0 [] s t
    h rfl (by rw [getTreeState_appends]; simp)
  obtain ⟨h1, h2, h3, h4⟩ := hsaved
  refine ⟨?_, ?_, ?_, h2, h3, ?_⟩
  · rw [getTreeState_appends]
    rfl
  · rw [getTreeState_appends]
    simp
  · rw [h1]
    omega
  · rw [h4, List.range_eq_range']
    simp

/-- C24 at a tree of three items: the state saved for a tree with the root and
the second child expanded is `101`, and setting it on a collapsed tree of the
same shape with other texts returns 3. -/
theorem treeState_round_trip_three_items :
    threeItems.shape = threeItemsSaved.shape ∧
    (SettingsTreeManager.GetTreeState ['x'] threeItemsSaved
      = ['x'] ++ threeItemsSaved.preorder.map (fun entry => if entry.2 then '1' else '0') ∧
    (SettingsTreeManager.GetTreeState [] threeItemsSaved).length
      = threeItemsSaved.preorder.length ∧
    (SettingsTreeManager.SetTreeState (SettingsTreeManager.GetTreeState [] threeItemsSaved)
      0 [] threeItems).index = threeItemsSaved.preorder.length ∧
    (SettingsTreeManager.SetTreeState (SettingsTreeManager.GetTreeState [] threeItemsSaved)
      0 [] threeItems).top_item.flagsOnly = threeItemsSaved.flagsOnly ∧
    (SettingsTreeManager.SetTreeState (SettingsTreeManager.GetTreeState [] threeItemsSaved)
      0 [] threeItems).top_item.textsOnly = threeItems.textsOnly ∧
    (SettingsTreeManager.SetTreeState (SettingsTreeManager.GetTreeState [] threeItemsSaved)
      0 [] threeItems).reads = List.range threeItemsSaved.preorder.length) ∧
    SettingsTreeManager.GetTreeState [] threeItemsSaved = ['1', '0', '1'] ∧
    (SettingsTreeManager.SetTreeState ['1', '0', '1'] 0 [] threeItems).top_item.preorder
      = [("root", true), ("first", false), ("second", true)] :=
  ⟨rfl, treeState_round_trip ['x'] threeItems threeItemsSaved rfl, by decide, by decide⟩

/-! ## The Vulkan info tree -/

theorem foldl_addChild_eq (variantText : QJsonValue → String) (items : List QJsonValue)
    (parent : QTreeWidgetItem) :
    items.foldl (fun parent element =>
        parent.addChild (QTreeWidgetItem.create.setText (variantText element))) parent
      = ⟨parent.text, parent.expanded, parent.children ++
          items.map (fun element => (⟨variantText element, false, []⟩ : QTreeWidgetItem))⟩ := by
  induction items generalizing parent with
  | nil => cases parent; simp
  | cons element rest ih =>
    rw [List.foldl_cons, ih]
    simp [QTreeWidgetItem.addChild, QTreeWidgetItem.create, QTreeWidgetItem.setText]

/-- The loop of `TraverseGenericProperties` in closed form: one child per field,
in order, after the children the parent already had. -/
theorem traverse_fields_eq (variantText : QJsonValue → String) (parentObject : QJsonObject)
    (recurse : (field : String) → 0 < (parentObject.value field).toObject.length →
      QTreeWidgetItem → QTreeWidgetItem)
    (fields : List String) (parent : QTreeWidgetItem) :
    dlgVulkanInfo.TraverseGenericProperties.fields variantText parentObject recurse fields parent
      = { parent with children := parent.children ++ fields.map (fun field =>
            if (parentObject.value field).isArray then
              (⟨field ++ ": count = " ++ toString (parentObject.value field).toArray.length,
                false,
                (parentObject.value field).toArray.map
                  (fun element => (⟨variantText element, false, []⟩ : QTreeWidgetItem))⟩
                : QTreeWidgetItem)
            else if h : 0 < (parentObject.value field).toObject.length then
              recurse field h ⟨field, false, []⟩
            else ⟨field ++ " = " ++ variantText (parentObject.value field), false, []⟩) } := by
  induction fields generalizing parent with
  | nil => cases parent; simp [dlgVulkanInfo.TraverseGenericProperties.fields]
  | cons field rest ih =>
    unfold dlgVulkanInfo.TraverseGenericProperties.fields
    by_cases harray : (parentObject.value field).isArray = true
    · simp only [harray, Bool.not_true, Bool.false_eq_true, if_false, foldl_addChild_eq, ih]
      simp [QTreeWidgetItem.addChild, QTreeWidgetItem.create, QTreeWidgetItem.setText, harray]
    · by_cases hobject : 0 < (parentObject.value field).toObject.length
      · simp [harray, hobject, ih, QTreeWidgetItem.addChild, QTreeWidgetItem.create,
          QTreeWidgetItem.setText]
      · simp [harray, hobject, ih, QTreeWidgetItem.addChild, QTreeWidgetItem.create,
          QTreeWidgetItem.setText]

theorem value_of_nonempty_object_is_member (object : QJsonObject) (field : String)
    (h : 0 < (object.value field).toObject.length) :
    ∃ member ∈ object, member.1 = field ∧ member.2 = object.value field := by
  induction object with
  | nil => simp [QJsonObject.value, QJsonValue.toObject] at h
  | cons member rest ih =>
    by_cases hkey : member.1 = field
    · exact ⟨member, List.mem_cons_self _ _, hkey, by simp [QJsonObject.value, hkey]⟩
    · simp only [QJsonObject.value, hkey, if_false] at h ⊢
      obtain ⟨found, hmem, hfield, hvalue⟩ := ih h
      exact ⟨found, List.mem_cons_of_mem _ hmem, hfield, hvalue⟩

/-- C26: `TraverseGenericProperties` is a total function of the JSON value (it
terminates on every value). It leaves the text and flag of the parent item as
they are and adds to its children exactly one child per key of the object, in
key order: for an array of `n` elements the item `key: count = n` with one leaf
per element, for a non-empty object the item `key` filled by the recursive
call, and for every other value the leaf `key = value`. The recursive call is
made only on a field value that is a non-empty object, and such a value is the
value of a member of the current object. -/
theorem traverse_one_child_per_key (variantText : QJsonValue → String) (json : QJsonValue)
    (parent : QTreeWidgetItem) :
    dlgVulkanInfo.TraverseGenericProperties variantText json parent
      = { parent with children := parent.children ++ json.toObject.keys.map (fun field =>
            if (json.toObject.value field).isArray then
              (⟨field ++ ": count = " ++ toString (json.toObject.value field).toArray.length,
                false,
                (json.toObject.value field).toArray.map
                  (fun element => (⟨variantText element, false, []⟩ : QTreeWidgetItem))⟩
                : QTreeWidgetItem)
            else if 0 < (json.toObject.value field).toObject.length then
              dlgVulkanInfo.TraverseGenericProperties variantText (json.toObject.value field)
                ⟨field, false, []⟩
            else ⟨field ++ " = " ++ variantText (json.toObject.value field), false, []⟩) } ∧
    (dlgVulkanInfo.TraverseGenericProperties variantText json parent).children.length
      = parent.children.length + json.toObject.keys.length ∧
    (∀ field : String, 0 < (json.toObject.value field).toObject.length →
      ∃ member ∈ json.toObject, member.1 = field ∧ member.2 = json.toObject.value field) := by
  have hclosed := traverse_fields_eq variantText json.toObject
    (fun field _ pNewChild =>
      dlgVulkanInfo.TraverseGenericProperties variantText (json.toObject.value field) pNewChild)
    json.toObject.keys parent
  rw [dlgVulkanInfo.TraverseGenericProperties]
  refine ⟨?_, ?_, fun field h => value_of_nonempty_object_is_member _ field h⟩
  · rw [hclosed]
    simp only [dite_eq_ite]
  · rw [hclosed]
    simp

/-- C25 fails on the code: `BuildSurfaces` calls
`TraverseGenericProperties(jsonValue, pRoot)` once per key of the object, each
time on the whole object. For a "Presentable Surfaces" object with the two keys
GPU0 and GPU1 the root gets four children, GPU0, GPU1, GPU0, GPU1, where one
call of `TraverseGenericProperties`, and `BuildGroups`, give the two children
GPU0 and GPU1. -/
theorem buildSurfaces_repeats_every_key :
    (dlgVulkanInfo.BuildSurfaces sampleVariantText twoSurfaces
      QTreeWidgetItem.create).children.map (fun item => item.text)
      = ["GPU0", "GPU1", "GPU0", "GPU1"] ∧
    (dlgVulkanInfo.BuildSurfaces sampleVariantText twoSurfaces QTreeWidgetItem.create).preorder
      = [("Presentable Surfaces", false),
         ("GPU0", false), ("Surface type = VK_KHR_xcb_surface", false),
         ("GPU1", false), ("Surface type = VK_KHR_xlib_surface", false),
         ("GPU0", false), ("Surface type = VK_KHR_xcb_surface", false),
         ("GPU1", false), ("Surface type = VK_KHR_xlib_surface", false)] ∧
    (dlgVulkanInfo.TraverseGenericProperties sampleVariantText twoSurfaces
      (QTreeWidgetItem.create.setText "Presentable Surfaces")).children.map
        (fun item => item.text)
      = ["GPU0", "GPU1"] ∧
    (dlgVulkanInfo.BuildGroups sampleVariantText twoSurfaces
      QTreeWidgetItem.create).children.map (fun item => item.text)
      = ["GPU0", "GPU1"] := by
  refine ⟨?_, ?_, ?_, ?_⟩ <;>
    simp [dlgVulkanInfo.BuildSurfaces, dlgVulkanInfo.BuildSurfaces.loop,
      dlgVulkanInfo.BuildGroups, twoSurfaces, dlgVulkanInfo.TraverseGenericProperties,
      dlgVulkanInfo.TraverseGenericProperties.fields, QJsonValue.toObject, QJsonObject.keys,
      QJsonObject.value, QJsonValue.isArray, QTreeWidgetItem.create, QTreeWidgetItem.setText,
      QTreeWidgetItem.addChild, QTreeWidgetItem.preorder, QTreeWidgetItem.preorderAll,
      sampleVariantText]

/-! ## The settings tree -/

/-- An iteration of the first loop of `CreateGUI` never stops at a fault: a tree
builder is called only after `FindByKey` has found the layer of the
parameter. -/
theorem layerItem_ok (c : SettingsTreeManager.Collaborators)
    (available_layers : List SettingsTreeManager.Layer)
    (parameter : SettingsTreeManager.Parameter) :
    ∃ result, SettingsTreeManager.CreateGUI.layerItem c available_layers parameter
      = Except.ok result := by
  unfold SettingsTreeManager.CreateGUI.layerItem
  by_cases hplatform : c.IsPlatformSupported parameter.platform_flags = true
  · by_cases hstate : parameter.state = LAYER_STATE_OVERRIDDEN
    · cases hfind : c.FindByKey available_layers parameter.key with
      | none => simp [hplatform, hstate]
      | some found =>
        by_cases hempty : parameter.settings.isEmpty = true
        · simp [hplatform, hstate, hempty]
        · by_cases hkey : parameter.key = "VK_LAYER_KHRONOS_validation"
          · have hfind2 : c.FindByKey available_layers "VK_LAYER_KHRONOS_validation"
                = some found := by rw [← hkey, hfind]
            simp [hplatform, hstate, hempty, hkey,
              SettingsTreeManager.BuildValidationTree, hfind2]
          · simp [hplatform, hstate, hempty, hkey,
              SettingsTreeManager.BuildGenericTree, hfind]
    · simp [hplatform, hstate]
  · simp [hplatform]

/-- The first loop of `CreateGUI` in closed form: the top-level items so far,
then the item of each parameter that gets one, in order. -/
theorem layerLoop_eq (c : SettingsTreeManager.Collaborators)
    (available_layers : List SettingsTreeManager.Layer)
    (parameters : List SettingsTreeManager.Parameter) (tree : List QTreeWidgetItem) :
    SettingsTreeManager.CreateGUI.layerLoop c available_layers parameters tree
      = Except.ok (tree ++ parameters.filterMap (fun parameter =>
          (SettingsTreeManager.CreateGUI.layerItem c available_layers
            parameter).toOption.join)) := by
  induction parameters generalizing tree with
  | nil => simp [SettingsTreeManager.CreateGUI.layerLoop]
  | cons parameter rest ih =>
    obtain ⟨result, hresult⟩ := layerItem_ok c available_layers parameter
    cases result with
    | none =>
      simp [SettingsTreeManager.CreateGUI.layerLoop, hresult, ih, Except.toOption,
        Option.join]
    | some item =>
      simp [SettingsTreeManager.CreateGUI.layerLoop, hresult, ih, Except.toOption,
        Option.join]

/-- The second loop of `CreateGUI` in closed form. -/
theorem excludedLoop_eq (c : SettingsTreeManager.Collaborators)
    (available_layers : List SettingsTreeManager.Layer)
    (parameters : List SettingsTreeManager.Parameter) (excluded_layers : QTreeWidgetItem) :
    SettingsTreeManager.CreateGUI.excludedLoop c available_layers parameters excluded_layers
      = ⟨excluded_layers.text, excluded_layers.expanded,
          excluded_layers.children ++ parameters.filterMap
            (SettingsTreeManager.CreateGUI.excludedItem c available_layers)⟩ := by
  induction parameters generalizing excluded_layers with
  | nil => cases excluded_layers; simp [SettingsTreeManager.CreateGUI.excludedLoop]
  | cons parameter rest ih =>
    cases hitem : SettingsTreeManager.CreateGUI.excludedItem c available_layers parameter with
    | none => simp [SettingsTreeManager.CreateGUI.excludedLoop, hitem, ih]
    | some item =>
      simp [SettingsTreeManager.CreateGUI.excludedLoop, hitem, ih, QTreeWidgetItem.addChild]

/-- `CreateGUI` for a configuration with an override, in closed form. -/
theorem createGUI_eq (c : SettingsTreeManager.Collaborators)
    (available_layers : List SettingsTreeManager.Layer)
    (configuration : SettingsTreeManager.Configuration)
    (h : c.HasOverride configuration = true) :
    SettingsTreeManager.CreateGUI c available_layers configuration
      = Except.ok (
          (if c.CountOverriddenLayers configuration.parameters > 1 then
            [(⟨"Vulkan Applications", false, []⟩ : QTreeWidgetItem)] else []) ++
          configuration.parameters.filterMap (fun parameter =>
            (SettingsTreeManager.CreateGUI.layerItem c available_layers
              parameter).toOption.join) ++
          (if c.CountOverriddenLayers configuration.parameters > 1 then
            [(⟨"Vulkan Drivers", false, []⟩ : QTreeWidgetItem)] else []) ++
          (if c.CountExcludedLayers configuration.parameters available_layers > 0 then
            [(⟨"Excluded Layers:", true, configuration.parameters.filterMap
              (SettingsTreeManager.CreateGUI.excludedItem c available_layers)⟩
              : QTreeWidgetItem)]
           else [])) := by
  unfold SettingsTreeManager.CreateGUI
  simp only [h, Bool.not_true, Bool.false_eq_true, if_false, layerLoop_eq, excludedLoop_eq]
  by_cases hcount : c.CountOverriddenLayers configuration.parameters > 1 <;>
    by_cases hexcluded :
      c.CountExcludedLayers configuration.parameters available_layers > 0 <;>
    simp [hcount, hexcluded, QTreeWidgetItem.create, QTreeWidgetItem.setText,
      QTreeWidgetItem.setExpanded]

/-- C27: in `CreateGUI`, when the active configuration has an override, the
top-level items are the optional header "Vulkan Applications", then one item
for each parameter for which the first loop makes one, in order, then the
optional "Vulkan Drivers" and "Excluded Layers:" items, the latter with one
child for each parameter for which the second loop makes one. For a
platform-supported parameter with state OVERRIDDEN whose key `FindByKey` does
not find, the first loop makes exactly the item `key (Missing)` with no child;
for a parameter with state EXCLUDED whose key is not found, neither loop makes
an item. -/
theorem createGUI_missing_layers (c : SettingsTreeManager.Collaborators)
    (available_layers : List SettingsTreeManager.Layer)
    (configuration : SettingsTreeManager.Configuration)
    (h : c.HasOverride configuration = true) :
    SettingsTreeManager.CreateGUI c available_layers configuration
      = Except.ok (
          (if c.CountOverriddenLayers configuration.parameters > 1 then
            [(⟨"Vulkan Applications", false, []⟩ : QTreeWidgetItem)] else []) ++
          configuration.parameters.filterMap (fun parameter =>
            (SettingsTreeManager.CreateGUI.layerItem c available_layers
              parameter).toOption.join) ++
          (if c.CountOverriddenLayers configuration.parameters > 1 then
            [(⟨"Vulkan Drivers", false, []⟩ : QTreeWidgetItem)] else []) ++
          (if c.CountExcludedLayers configuration.parameters available_layers > 0 then
            [(⟨"Excluded Layers:", true, configuration.parameters.filterMap
              (SettingsTreeManager.CreateGUI.excludedItem c available_layers)⟩
              : QTreeWidgetItem)]
           else [])) ∧
    (∀ parameter : SettingsTreeManager.Parameter,
      c.IsPlatformSupported parameter.platform_flags = true →
      parameter.state = LAYER_STATE_OVERRIDDEN →
      c.FindByKey available_layers parameter.key = none →
        SettingsTreeManager.CreateGUI.layerItem c available_layers parameter
          = Except.ok (some ⟨parameter.key ++ " (Missing)", false, []⟩) ∧
        SettingsTreeManager.CreateGUI.excludedItem c available_layers parameter = none) ∧
    (∀ parameter : SettingsTreeManager.Parameter,
      parameter.state = LAYER_STATE_EXCLUDED →
      c.FindByKey available_layers parameter.key = none →
        SettingsTreeManager.CreateGUI.layerItem c available_layers parameter
          = Except.ok none ∧
        SettingsTreeManager.CreateGUI.excludedItem c available_layers parameter = none) := by
  refine ⟨createGUI_eq c available_layers configuration h, ?_, ?_⟩
  · intro parameter hplatform hstate hfind
    constructor
    · simp [SettingsTreeManager.CreateGUI.layerItem, hplatform, hstate, hfind,
        QTreeWidgetItem.create, QTreeWidgetItem.setText]
    · simp [SettingsTreeManager.CreateGUI.excludedItem, hplatform, hstate]
  · intro parameter hstate hfind
    constructor
    · by_cases hplatform : c.IsPlatformSupported parameter.platform_flags = true
      · simp [SettingsTreeManager.CreateGUI.layerItem, hplatform, hstate]
      · simp [SettingsTreeManager.CreateGUI.layerItem, hplatform]
    · by_cases hplatform : c.IsPlatformSupported parameter.platform_flags = true
      · simp [SettingsTreeManager.CreateGUI.excludedItem, hplatform, hstate, hfind]
      · simp [SettingsTreeManager.CreateGUI.excludedItem, hplatform]

/-- C27 at a configuration that overrides an installed layer and a missing one
and excludes an installed layer and a missing one: the five top-level items
are the two headers, the installed overridden layer with its settings, the
leaf `VK_LAYER_LUNARG_gone (Missing)`, and "Excluded Layers:" with the
installed excluded layer as its only child. -/
theorem createGUI_missing_layers_sample :
    SettingsTreeManager.sampleCollaborators.HasOverride
      SettingsTreeManager.configurationWithMissing = true ∧
    (SettingsTreeManager.CreateGUI SettingsTreeManager.sampleCollaborators
        SettingsTreeManager.installedLayers
        SettingsTreeManager.configurationWithMissing).toOption.map
          (fun items => items.map (fun item => item.preorder))
      = some [[("Vulkan Applications", false)],
          [("VK_LAYER_LUNARG_api_dump", false), ("settings", false)],
          [("VK_LAYER_LUNARG_gone (Missing)", false)],
          [("Vulkan Drivers", false)],
          [("Excluded Layers:", true), ("VK_LAYER_LUNARG_monitor", false)]] ∧
    SettingsTreeManager.CreateGUI.layerItem SettingsTreeManager.sampleCollaborators
        SettingsTreeManager.installedLayers
        ⟨"VK_LAYER_LUNARG_gone", LAYER_STATE_OVERRIDDEN, 0, [sampleSetting "stdout"]⟩
      = Except.ok (some ⟨"VK_LAYER_LUNARG_gone" ++ " (Missing)", false, []⟩) ∧
    SettingsTreeManager.CreateGUI.excludedItem SettingsTreeManager.sampleCollaborators
        SettingsTreeManager.installedLayers
        ⟨"VK_LAYER_LUNARG_lost", LAYER_STATE_EXCLUDED, 0, []⟩ = none :=
  have h := createGUI_missing_layers SettingsTreeManager.sampleCollaborators
    SettingsTreeManager.installedLayers SettingsTreeManager.configurationWithMissing
    (by decide)
  ⟨by decide, by decide,
    (h.2.1 ⟨"VK_LAYER_LUNARG_gone", LAYER_STATE_OVERRIDDEN, 0, [sampleSetting "stdout"]⟩
      rfl rfl (by decide)).1,
    (h.2.2 ⟨"VK_LAYER_LUNARG_lost", LAYER_STATE_EXCLUDED, 0, []⟩ rfl (by decide)).2⟩

/-- C28: within `CreateGUI` the two tree builders are called only after
`FindByKey` has found the layer of the parameter, in the same
`available_layers`, so neither fault happens: `CreateGUI` and every iteration
of its first loop end with a result, whereas `BuildGenericTree` dereferences
null exactly when the key of its parameter is not found and the assertion of
`BuildValidationTree` fails exactly when `VK_LAYER_KHRONOS_validation` is not
found. For a parameter whose key is not found the first loop makes no item or
the leaf `key (Missing)`, without a call of a tree builder. -/
theorem createGUI_tree_builders_do_not_fault (c : SettingsTreeManager.Collaborators)
    (available_layers : List SettingsTreeManager.Layer)
    (configuration : SettingsTreeManager.Configuration) (parent : QTreeWidgetItem)
    (parameter : SettingsTreeManager.Parameter) :
    (∃ items, SettingsTreeManager.CreateGUI c available_layers configuration
      = Except.ok items) ∧
    (∃ result, SettingsTreeManager.CreateGUI.layerItem c available_layers parameter
      = Except.ok result) ∧
    (SettingsTreeManager.BuildGenericTree c available_layers parent parameter
        = Except.error SettingsTreeManager.Fault.nullDereference ↔
      c.FindByKey available_layers parameter.key = none) ∧
    (SettingsTreeManager.BuildValidationTree c available_layers parent parameter
        = Except.error SettingsTreeManager.Fault.assertionFailure ↔
      c.FindByKey available_layers "VK_LAYER_KHRONOS_validation" = none) ∧
    (c.FindByKey available_layers parameter.key = none →
      SettingsTreeManager.CreateGUI.layerItem c available_layers parameter = Except.ok none ∨
      SettingsTreeManager.CreateGUI.layerItem c available_layers parameter
        = Except.ok (some ⟨parameter.key ++ " (Missing)", false, []⟩)) := by
  refine ⟨?_, layerItem_ok c available_layers parameter, ?_, ?_, ?_⟩
  · by_cases h : c.HasOverride configuration = true
    · exact ⟨_, createGUI_eq c available_layers configuration h⟩
    · exact ⟨[QTreeWidgetItem.create.setText "No overridden or excluded layer"],
        by simp [SettingsTreeManager.CreateGUI, h]⟩
  · cases hfind : c.FindByKey available_layers parameter.key <;>
      simp [SettingsTreeManager.BuildGenericTree, hfind]
  · cases hfind : c.FindByKey available_layers "VK_LAYER_KHRONOS_validation" <;>
      simp [SettingsTreeManager.BuildValidationTree, hfind]
  · intro hfind
    by_cases hplatform : c.IsPlatformSupported parameter.platform_flags = true
    · by_cases hstate : parameter.state = LAYER_STATE_OVERRIDDEN
      · right
        simp [SettingsTreeManager.CreateGUI.layerItem, hplatform, hstate, hfind,
          QTreeWidgetItem.create, QTreeWidgetItem.setText]
      · left
        simp [SettingsTreeManager.CreateGUI.layerItem, hplatform, hstate]
    · left
      simp [SettingsTreeManager.CreateGUI.layerItem, hplatform]

end VkConfig
